import Mathlib

/-!
Verification development for the rpy2040 RP2040 emulator.

The Python source is shallowly embedded: Python unbounded integers become
`Int` (or `Nat` where the source value is provably non-negative), Python
bitwise operations on possibly-negative integers use Mathlib's two's
complement operations `Int.land`, `Int.lor`, `Int.lnot`, `Int.xor`, and
Python's floor-division semantics of `>>` on `Int` matches Lean's
`Int.shiftRight`.  Stateful methods become explicit state-passing
functions.  Notes on individual translation choices appear on each
definition.
-/

set_option maxRecDepth 10000

/-- Python `a & ~b` on non-negative integers: keep the bits of `a` that
are not set in `b`, i.e. remove from `a` the bits it shares with `b`.
(`pyAndNot_eq_ldiff` below proves this equal to `Nat.ldiff`, the bitwise
and-not; this arithmetic form is used because it reduces in the kernel.) -/
def pyAndNot (a b : Nat) : Nat := a - (a &&& b)

/-- Python `ctypes.c_int32(x).value`: truncate `x` to its low 32 bits and
reinterpret as a two's complement signed 32-bit value.  `%` on `Int` is
Euclidean (non-negative remainder for a positive modulus), matching
Python `%`. -/
def c_int32 (x : Int) : Int :=
  let r := x % 0x100000000
  if r < 0x80000000 then r else r - 0x100000000

/-- `sign_extend` from `rpy2040/rpy2040.py`:
```
def sign_extend(value, no_bits_in):
    sign = (value >> (no_bits_in - 1)) & 1
    sign_bits = ~(~0 << (32 - no_bits_in))
    return ctypes.c_int32(((sign_bits if sign else 0) << no_bits_in) | value).value
```
Python `x << n` on `Int` is written as multiplication by `2 ^ n`. -/
def sign_extend (value : Int) (no_bits_in : Nat) : Int :=
  let sign := Int.land (value >>> (no_bits_in - 1)) 1
  let sign_bits := Int.lnot (Int.lnot 0 * 2 ^ (32 - no_bits_in))
  c_int32 (Int.lor ((if sign ≠ 0 then sign_bits else 0) * 2 ^ no_bits_in) value)

/-- Python `x & 0xFFFFFFFF` on a (possibly negative) int: the result is
non-negative, hence `Nat`. -/
def mask32 (x : Int) : Nat := (Int.land x 0xFFFFFFFF).toNat

/-- `add_with_carry` from `rpy2040/rpy2040.py`:
```
def add_with_carry(x, y, carry_in):
    x &= 0xFFFFFFFF
    y &= 0xFFFFFFFF
    unsigned_sum = x + y + carry_in
    signed_sum = sign_extend(x, 32) + sign_extend(y, 32) + carry_in
    result = unsigned_sum & 0xFFFFFFFF
    carry_out = False if result == unsigned_sum else True
    overflow = False if sign_extend(result, 32) == signed_sum else True
    return (result, carry_out, overflow)
```
-/
def add_with_carry (x y : Int) (carry_in : Bool) : Nat × Bool × Bool :=
  let x := mask32 x
  let y := mask32 y
  let unsigned_sum := x + y + carry_in.toNat
  let signed_sum := sign_extend x 32 + sign_extend y 32 + carry_in.toNat
  let result := unsigned_sum &&& 0xFFFFFFFF
  let carry_out := decide (¬ (result = unsigned_sum))
  let overflow := decide (¬ (sign_extend result 32 = signed_sum))
  (result, carry_out, overflow)

/-- Python `bool(xpsr & (1 << 31))` (the APSR.N accessor). -/
def apsr_n (xpsr : Nat) : Bool := decide (xpsr &&& (1 <<< 31) ≠ 0)

/-- Python `bool(xpsr & (1 << 30))` (the APSR.Z accessor). -/
def apsr_z (xpsr : Nat) : Bool := decide (xpsr &&& (1 <<< 30) ≠ 0)

/-- Python `bool(xpsr & (1 << 29))` (the APSR.C accessor). -/
def apsr_c (xpsr : Nat) : Bool := decide (xpsr &&& (1 <<< 29) ≠ 0)

/-- Python `bool(xpsr & (1 << 28))` (the APSR.V accessor). -/
def apsr_v (xpsr : Nat) : Bool := decide (xpsr &&& (1 <<< 28) ≠ 0)

/-- `Rp2040.condition_passed` from `rpy2040/rpy2040.py`, as a function of
the `xpsr` word it reads its flags from. -/
def condition_passed (xpsr : Nat) (cond : Nat) : Bool :=
  let result :=
    if cond >>> 1 = 0b000 then apsr_z xpsr
    else if cond >>> 1 = 0b001 then apsr_c xpsr
    else if cond >>> 1 = 0b010 then apsr_n xpsr
    else if cond >>> 1 = 0b011 then apsr_v xpsr
    else if cond >>> 1 = 0b100 then apsr_c xpsr && !apsr_z xpsr
    else if cond >>> 1 = 0b101 then apsr_n xpsr == apsr_v xpsr
    else if cond >>> 1 = 0b110 then (apsr_n xpsr == apsr_v xpsr) && !apsr_z xpsr
    else true
  if cond &&& 1 ≠ 0 ∧ cond ≠ 0b1111 then !result else result

section HelperLemmas

/-- Masking with an all-ones word is reduction mod a power of two. -/
theorem nat_and_two_pow_sub_one (x n : Nat) : x &&& (2 ^ n - 1) = x % 2 ^ n := by
  apply Nat.eq_of_testBit_eq
  intro i
  simp [Nat.testBit_land, Nat.testBit_mod_two_pow, Nat.testBit_two_pow_sub_one, Bool.and_comm]

theorem ldiff_add_land (a b : Nat) : Nat.ldiff a b + (a &&& b) = a := by
  induction a using Nat.binaryRec generalizing b with
  | z => simp [Nat.ldiff, Nat.bitwise_zero_left]
  | f x m ih =>
    cases b using Nat.bitCasesOn with
    | h y n =>
      rw [Nat.ldiff_bit, Nat.land_bit, Nat.bit_val, Nat.bit_val, Nat.bit_val]
      have ihn := ih n
      cases x <;> cases y <;> simp <;> omega

/-- The arithmetic `pyAndNot` agrees with the bitwise and-not. -/
theorem pyAndNot_eq_ldiff (a b : Nat) : pyAndNot a b = Nat.ldiff a b := by
  have h := ldiff_add_land a b
  unfold pyAndNot
  omega

theorem int_land_ofNat (a b : Nat) : Int.land (a : Int) (b : Int) = ((a &&& b : Nat) : Int) := rfl

theorem mask32_ofNat (a : Nat) : mask32 (a : Int) = a % 2 ^ 32 := by
  have h : Int.land (a : Int) 0xFFFFFFFF = ((a &&& 0xFFFFFFFF : Nat) : Int) := rfl
  rw [mask32, h, Int.toNat_natCast]
  have h2 : (0xFFFFFFFF : Nat) = 2 ^ 32 - 1 := by norm_num
  rw [h2, nat_and_two_pow_sub_one]

theorem c_int32_emod (x : Int) : c_int32 x % 0x100000000 = x % 0x100000000 := by
  simp only [c_int32]
  split <;> omega

theorem c_int32_bounds (x : Int) : -0x80000000 ≤ c_int32 x ∧ c_int32 x < 0x80000000 := by
  simp only [c_int32]
  split <;> omega

/-- Two integers congruent mod `2^32`, the first reduced into the signed
32-bit window, are equal exactly when the second also lies in the window. -/
theorem int32_window_iff (X A B ci sa sb : Int)
    (hXm : X % 4294967296 = (sa + sb + ci) % 4294967296 % 4294967296)
    (hXb : -2147483648 ≤ X ∧ X < 2147483648)
    (hAm : A % 4294967296 = sa % 4294967296)
    (hBm : B % 4294967296 = sb % 4294967296) :
    (¬ (X = A + B + ci) ↔ (A + B + ci < -2147483648 ∨ 2147483647 < A + B + ci)) := by
  omega

theorem sign_extend_ofNat_32 (n : Nat) : sign_extend (n : Int) 32 = c_int32 (n : Int) := by
  unfold sign_extend
  have hb : Int.lnot (Int.lnot 0 * 2 ^ (32 - 32)) = 0 := by decide
  simp only [hb, ite_self, zero_mul]
  have hl : Int.lor 0 (n : Int) = (n : Int) := by
    show Int.lor ((0 : Nat) : Int) (n : Int) = (n : Int)
    rw [show Int.lor ((0 : Nat) : Int) (n : Int) = ((0 ||| n : Nat) : Int) from rfl]
    simp
  rw [hl]

end HelperLemmas

/-- C1: for 32-bit operands `a`, `b` and carry `c`, `add_with_carry` returns
the truncated sum `(a+b+c) mod 2^32`, a carry-out that holds exactly when
`a+b+c ≥ 2^32`, and an overflow flag that holds exactly when the signed sum
`int32(a) + int32(b) + c` lies outside `[-2^31, 2^31-1]`. -/
theorem claim_C1 (a b : Nat) (c : Bool) (ha : a < 2 ^ 32) (hb : b < 2 ^ 32) :
    (add_with_carry (a : Int) (b : Int) c).1 = (a + b + c.toNat) % 2 ^ 32 ∧
    ((add_with_carry (a : Int) (b : Int) c).2.1 = true ↔ 2 ^ 32 ≤ a + b + c.toNat) ∧
    ((add_with_carry (a : Int) (b : Int) c).2.2 = true ↔
      (c_int32 (a : Int) + c_int32 (b : Int) + (c.toNat : Int) < -(2 ^ 31) ∨
       (2 ^ 31 : Int) - 1 < c_int32 (a : Int) + c_int32 (b : Int) + (c.toNat : Int))) := by
  have hma : mask32 (a : Int) = a := by
    rw [mask32_ofNat, Nat.mod_eq_of_lt ha]
  have hmb : mask32 (b : Int) = b := by
    rw [mask32_ofNat, Nat.mod_eq_of_lt hb]
  have hmask : ∀ s : Nat, s &&& 0xFFFFFFFF = s % 2 ^ 32 := by
    intro s
    have h2 : (0xFFFFFFFF : Nat) = 2 ^ 32 - 1 := by norm_num
    rw [h2, nat_and_two_pow_sub_one]
  unfold add_with_carry
  simp only [hma, hmb, hmask]
  refine ⟨by trivial, ?_, ?_⟩
  · rw [decide_eq_true_iff]
    have hlt : (a + b + c.toNat) % 2 ^ 32 < 2 ^ 32 := Nat.mod_lt _ (by norm_num)
    constructor
    · intro h
      by_contra hcon
      exact h (Nat.mod_eq_of_lt (by omega))
    · intro h hmod
      omega
  · rw [decide_eq_true_iff]
    rw [sign_extend_ofNat_32, sign_extend_ofNat_32, sign_extend_ofNat_32]
    have hcast : (((a + b + c.toNat) % 2 ^ 32 : Nat) : Int) = ((a : Int) + (b : Int) + (c.toNat : Int)) % 2 ^ 32 := by
      push_cast
      ring_nf
    rw [hcast]
    have hpow32 : ((2 : Int) ^ 32) = 4294967296 := by norm_num
    have hpow31 : ((2 : Int) ^ 31) = 2147483648 := by norm_num
    rw [hpow32, hpow31, show (2147483648 : Int) - 1 = 2147483647 from by norm_num]
    exact int32_window_iff _ _ _ _ _ _
      (hpow32 ▸ c_int32_emod (((a : Int) + (b : Int) + (c.toNat : Int)) % 2 ^ 32))
      (c_int32_bounds _)
      (c_int32_emod (a : Int))
      (c_int32_emod (b : Int))

/-- C1 witness: a concrete instantiation of `claim_C1`. -/
theorem claim_C1_witness :
    (3 : Nat) < 2 ^ 32 ∧ (5 : Nat) < 2 ^ 32 ∧
    (add_with_carry ((3 : Nat) : Int) ((5 : Nat) : Int) true).1 = (3 + 5 + Bool.toNat true) % 2 ^ 32 :=
  ⟨by norm_num, by norm_num, (claim_C1 3 5 true (by norm_num) (by norm_num)).1⟩

/-- C4 counterexample: with all flags clear, condition codes 14 and 15 (= 14
XOR 1) both evaluate to true, so they are not opposite. -/
theorem claim_C4_counterexample :
    condition_passed 0 14 = true ∧ condition_passed 0 (14 ^^^ 1) = true := by
  constructor <;> rfl

/-- C4 (amended): for condition codes below 14, evaluating `cond` and
`cond XOR 1` gives opposite booleans, for every setting of the APSR flags.
Codes 14 and 15 both decode as AL and both return true. -/
theorem claim_C4 (xpsr : Nat) (cond : Nat) (h : cond < 14) :
    condition_passed xpsr cond = !condition_passed xpsr (cond ^^^ 1) := by
  interval_cases cond <;>
    simp [condition_passed]

/-- C4 witness: a concrete instantiation of `claim_C4`. -/
theorem claim_C4_witness :
    (0 : Nat) < 14 ∧ condition_passed 7 0 = !condition_passed 7 (0 ^^^ 1) :=
  ⟨by norm_num, claim_C4 7 0 (by norm_num)⟩

/-! ## CPU state and the instruction executor

`Rp2040` keeps its sixteen registers in `array.array('l', 16*[0])`, an
array of signed machine integers; we model it as a total function
`Nat → Int` of which only indices 0-15 are used.  The memory bus
`self.mpu` is abstracted by a read function `Int → Nat → Nat`
(`read address num_bytes`, the value returned by `Mpu.read`) plus an
ordered log of the writes the instruction issues; no instruction of the
source both writes and then reads memory, so a pure read function is
faithful for a single `execute_instruction` step.  The `on_break`
callable slot becomes an explicit function argument. -/

/-- One bus write `self.mpu.write(address, value, num_bytes)` issued by the
executor. -/
structure MemWrite where
  address : Int
  value : Int
  num_bytes : Nat

/-- The mutable state of an `Rp2040` instance (minus the bus and the
`on_break` slot, which are passed explicitly). -/
structure St where
  registers : Nat → Int
  xpsr : Nat
  primask_pm : Bool
  stopped : Bool
  stop_reason : Nat
  pc_previous : Int

/-- Python `self.registers[i] = v`. -/
def St.set_reg (s : St) (i : Nat) (v : Int) : St :=
  { s with registers := fun j => if j = i then v else s.registers j }

/-- PC is an alias for register 15. -/
def St.pc (s : St) : Int := s.registers 15

def St.set_pc (s : St) (v : Int) : St := s.set_reg 15 v

/-- SP is an alias for register 13. -/
def St.sp (s : St) : Int := s.registers 13

def St.set_sp (s : St) (v : Int) : St := s.set_reg 13 v

/-- LR is an alias for register 14. -/
def St.lr (s : St) : Int := s.registers 14

def St.set_lr (s : St) (v : Int) : St := s.set_reg 14 v

/-- The `apsr_n` property setter: set or clear bit 31 of `xpsr`. -/
def St.set_apsr_n (s : St) (value : Bool) : St :=
  if value then { s with xpsr := s.xpsr ||| (1 <<< 31) }
  else { s with xpsr := pyAndNot s.xpsr (1 <<< 31) }

/-- The `apsr_z` property setter: set or clear bit 30 of `xpsr`. -/
def St.set_apsr_z (s : St) (value : Bool) : St :=
  if value then { s with xpsr := s.xpsr ||| (1 <<< 30) }
  else { s with xpsr := pyAndNot s.xpsr (1 <<< 30) }

/-- The `apsr_c` property setter: set or clear bit 29 of `xpsr`. -/
def St.set_apsr_c (s : St) (value : Bool) : St :=
  if value then { s with xpsr := s.xpsr ||| (1 <<< 29) }
  else { s with xpsr := pyAndNot s.xpsr (1 <<< 29) }

/-- The `apsr_v` property setter: set or clear bit 28 of `xpsr`. -/
def St.set_apsr_v (s : St) (value : Bool) : St :=
  if value then { s with xpsr := s.xpsr ||| (1 <<< 28) }
  else { s with xpsr := pyAndNot s.xpsr (1 <<< 28) }

/-- Python `int.bit_count()` (population count) on a non-negative int.
Structural fuel recursion: `n` itself bounds the number of halvings. -/
def bit_count_aux : Nat → Nat → Nat
  | 0, _ => 0
  | fuel + 1, n => if n = 0 then 0 else (n &&& 1) + bit_count_aux fuel (n >>> 1)

def bit_count (n : Nat) : Nat := bit_count_aux n n

/-- Python `x >> n` on an int: arithmetic (floor) right shift. -/
def pyShr (x : Int) (n : Nat) : Int := x >>> n

/-- Flag helper: Python `bool(result & (1 << 31))` for an `Int` result. -/
def int_bit31 (result : Int) : Bool := decide (Int.land result 0x80000000 ≠ 0)

/-- Flag helper: Python `bool(result & (1 << 31))` for a `Nat` result. -/
def nat_bit31 (result : Nat) : Bool := decide (result &&& 0x80000000 ≠ 0)

/-- `Rp2040.execute_instruction` from `rpy2040/rpy2040.py`.  `read` stands
for `self.mpu.read` (with `read_uint32 a = read a 4` etc.), `on_break` for
the `self.on_break` slot.  Returns the new CPU state together with the
ordered list of bus writes the instruction performed.  Branches appear in
exactly the order of the Python `if/elif` chain; logging statements are
dropped.  Python `x << n` on ints is written `x * 2 ^ n`, `x >> n` is
`x >>> n` (both are floor shifts), and `~`, `&`, `|`, `^` on possibly
negative ints are `Int.lnot`, `Int.land`, `Int.lor`, `Int.xor`. -/
def execute_instruction (read : Int → Nat → Nat) (on_break : Nat → St → St)
    (s : St) : St × List MemWrite :=
  let opcode := read s.pc 2
  let s := { s with pc_previous := s.pc }
  let s := s.set_pc (s.pc + 2)
  let fetch32 := opcode >>> 12 = 0b1111
  let opcode2 := if fetch32 then read s.pc 2 else 0
  let s := if fetch32 then s.set_pc (s.pc + 2) else s
  -- ADC
  if (opcode >>> 6) = 0b0100000101 then
    let m := (opcode >>> 3) &&& 0x07
    let dn := opcode &&& 0x7
    let (result, c, v) := add_with_carry (s.registers dn) (s.registers m) (apsr_c s.xpsr)
    let s := s.set_reg dn (result : Int)
    let s := s.set_apsr_n (nat_bit31 result)
    let s := s.set_apsr_z (decide (result = 0))
    let s := s.set_apsr_c c
    let s := s.set_apsr_v v
    (s, [])
  -- ADD (immediate) T1
  else if (opcode >>> 9) = 0b0001110 then
    let imm := (opcode >>> 6) &&& 0x7
    let n := (opcode >>> 3) &&& 0x7
    let d := opcode &&& 0x7
    let (result, c, v) := add_with_carry (s.registers n) (imm : Int) false
    let s := s.set_reg d (result : Int)
    let s := s.set_apsr_n (nat_bit31 result)
    let s := s.set_apsr_z (decide (result = 0))
    let s := s.set_apsr_c c
    let s := s.set_apsr_v v
    (s, [])
  -- ADD (immediate) T2
  else if (opcode >>> 11) = 0b00110 then
    let dn := (opcode >>> 8) &&& 0x7
    let imm := opcode &&& 0xFF
    let (result, c, v) := add_with_carry (s.registers dn) (imm : Int) false
    let s := s.set_reg dn (result : Int)
    let s := s.set_apsr_n (nat_bit31 result)
    let s := s.set_apsr_z (decide (result = 0))
    let s := s.set_apsr_c c
    let s := s.set_apsr_v v
    (s, [])
  -- ADD (register) T1
  else if (opcode >>> 9) = 0b0001100 then
    let m := (opcode >>> 6) &&& 0x7
    let n := (opcode >>> 3) &&& 0x7
    let d := opcode &&& 0x7
    let (result, c, v) := add_with_carry (s.registers n) (s.registers m) false
    let s := s.set_reg d (result : Int)
    let s :=
      if d ≠ 15 then
        let s := s.set_apsr_n (nat_bit31 result)
        let s := s.set_apsr_z (decide (result = 0))
        let s := s.set_apsr_c c
        s.set_apsr_v v
      else s
    (s, [])
  -- ADD (register) T2
  else if (opcode >>> 8) = 0b01000100 then
    let dn := ((opcode >>> 4) &&& 0x08) ||| (opcode &&& 0x7)
    let m := (opcode >>> 3) &&& 0xF
    let s := s.set_reg dn (s.registers m + s.registers dn)
    (s, [])
  -- ADD (SP plus immediate) T1
  else if (opcode >>> 11) = 0b10101 then
    let imm32 := (opcode &&& 0xFF) <<< 2
    let d := (opcode >>> 8) &&& 0x7
    let (result, _, _) := add_with_carry s.sp (imm32 : Int) false
    let s := s.set_reg d (result : Int)
    (s, [])
  -- ADD (SP plus immediate) T2
  else if (opcode >>> 7) = 0b101100000 then
    let imm32 := (opcode &&& 0x7F) <<< 2
    let (result, _, _) := add_with_carry s.sp (imm32 : Int) false
    let s := s.set_sp (result : Int)
    (s, [])
  -- ADR
  else if (opcode >>> 11) = 0b10100 then
    let d := (opcode >>> 8) &&& 0x7
    let imm32 := (opcode &&& 0xff) <<< 2
    let s := s.set_reg d (Int.land s.pc 0xfffffffc + (imm32 : Int))
    (s, [])
  -- AND
  else if (opcode >>> 6) = 0b0100000000 then
    let m := (opcode >>> 3) &&& 0x7
    let dn := opcode &&& 0x7
    let result := Int.land (s.registers dn) (s.registers m)
    let s := s.set_reg dn result
    let s := s.set_apsr_n (int_bit31 result)
    let s := s.set_apsr_z (decide (result = 0))
    (s, [])
  -- ASR (immediate)
  else if (opcode >>> 11) = 0b00010 then
    let m := (opcode >>> 3) &&& 0x07
    let d := opcode &&& 0x07
    let imm5 := (opcode >>> 6) &&& 0x1F
    let shift_n := if imm5 ≠ 0 then imm5 else 32
    let result :=
      if shift_n < 32 then sign_extend (pyShr (s.registers m) shift_n) (32 - shift_n)
      else sign_extend (pyShr (s.registers m) 31) 1
    let s := s.set_reg d (Int.land result 0xFFFFFFFF)
    let s := s.set_apsr_n (int_bit31 result)
    let s := s.set_apsr_z (decide (result = 0))
    -- Python reads self.registers[m] after the assignment to registers[d]
    let s := s.set_apsr_c (decide (Int.land (pyShr (s.registers m) (shift_n - 1)) 1 ≠ 0))
    (s, [])
  -- B T1
  else if (opcode >>> 12) = 0b1101 ∧ ((opcode >>> 9) &&& 0x7) ≠ 0b111 then
    let imm8 := opcode &&& 0xff
    let cond := (opcode >>> 8) &&& 0xf
    let imm32 := sign_extend ((imm8 <<< 1 : Nat) : Int) 9
    if condition_passed s.xpsr cond then
      (s.set_pc (s.pc + imm32 + 2), [])
    else (s, [])
  -- B T2
  else if (opcode >>> 11) = 0b11100 then
    let imm11 := opcode &&& 0x7ff
    let imm32 := sign_extend ((imm11 <<< 1 : Nat) : Int) 12
    (s.set_pc (s.pc + imm32 + 2), [])
  -- BIC
  else if (opcode >>> 6) = 0b0100001110 then
    let dn := opcode &&& 0x7
    let m := (opcode >>> 3) &&& 0x7
    let result := Int.land (s.registers dn) (Int.lnot (s.registers m))
    let s := s.set_reg dn result
    let s := s.set_apsr_n (int_bit31 result)
    let s := s.set_apsr_z (decide (result = 0))
    (s, [])
  -- BKPT
  else if (opcode >>> 8) = 0b10111110 then
    let imm8 := opcode &&& 0xff
    (on_break imm8 s, [])
  -- BL
  else if (opcode >>> 11) = 0b11110 ∧ (opcode2 >>> 14) = 0b11 then
    let imm10 := opcode &&& 0x3ff
    let imm11 := opcode2 &&& 0x7ff
    let j1 := decide (opcode2 &&& 0x2000 ≠ 0)
    let j2 := decide (opcode2 &&& 0x800 ≠ 0)
    let sbit := decide (opcode &&& 0x400 ≠ 0)
    let i1 := !(j1 ^^ sbit)
    let i2 := !(j2 ^^ sbit)
    let imm23 := (i1.toNat <<< 23) ||| (i2.toNat <<< 22) ||| (imm10 <<< 12) ||| (imm11 <<< 1)
    let imm32 := sign_extend (imm23 : Int) 23
    let s := s.set_lr (Int.lor s.pc 0x1)
    let s := s.set_pc (s.pc + imm32)
    (s, [])
  -- BLX
  else if (opcode >>> 7) = 0b010001111 then
    let m := (opcode >>> 3) &&& 0xf
    let address := Int.land (s.registers m) 0xfffffffe
    let s := s.set_lr (Int.lor s.pc 0x1)
    let s := s.set_pc address
    (s, [])
  -- BX
  else if (opcode >>> 7) = 0b010001110 then
    let m := (opcode >>> 3) &&& 0xf
    let address := Int.land (s.registers m) 0xfffffffe
    (s.set_pc address, [])
  -- CMP (immediate)
  else if (opcode >>> 11) = 0b00101 then
    let n := (opcode >>> 8) &&& 0x7
    let imm := opcode &&& 0xFF
    let (result, c, v) := add_with_carry (s.registers n) (Int.lnot (imm : Int)) true
    let s := s.set_apsr_n (nat_bit31 result)
    let s := s.set_apsr_z (decide (result = 0))
    let s := s.set_apsr_c c
    let s := s.set_apsr_v v
    (s, [])
  -- CMP (register) T1
  else if (opcode >>> 6) = 0b0100001010 then
    let m := (opcode >>> 3) &&& 0x7
    let n := opcode &&& 0x7
    let (result, c, v) := add_with_carry (s.registers n) (Int.lnot (s.registers m)) true
    let s := s.set_apsr_n (nat_bit31 result)
    let s := s.set_apsr_z (decide (result = 0))
    let s := s.set_apsr_c c
    let s := s.set_apsr_v v
    (s, [])
  -- CMP (register) T2
  else if (opcode >>> 8) = 0b01000101 then
    let n := ((opcode >>> 4) &&& 0x08) ||| (opcode &&& 0x7)
    let m := (opcode >>> 3) &&& 0xF
    let (result, c, v) := add_with_carry (s.registers n) (Int.lnot (s.registers m)) true
    let s := s.set_apsr_n (nat_bit31 result)
    let s := s.set_apsr_z (decide (result = 0))
    let s := s.set_apsr_c c
    let s := s.set_apsr_v v
    (s, [])
  -- CPS
  else if (opcode >>> 5) = 0b10110110011 then
    let im := (opcode >>> 4) &&& 0x1
    ({ s with primask_pm := decide (im ≠ 0) }, [])
  -- DMB
  else if opcode = 0b1111001110111111 ∧ (opcode2 >>> 4) = 0b100011110101 then
    (s, [])
  -- EOR
  else if (opcode >>> 6) = 0b0100000001 then
    let m := (opcode >>> 3) &&& 0x7
    let dn := opcode &&& 0x7
    let result := Int.xor (s.registers dn) (s.registers m)
    let s := s.set_reg dn result
    let s := s.set_apsr_n (int_bit31 result)
    let s := s.set_apsr_z (decide (result = 0))
    (s, [])
  -- LDM
  else if (opcode >>> 11) = 0b11001 then
    let n := (opcode >>> 8) &&& 0x7
    let register_list := opcode &&& 0xff
    let address := s.registers n
    let wback := decide ((register_list >>> n) &&& 1 = 0)
    let sa := (List.range 8).foldl
      (fun (sa : St × Int) i =>
        if (register_list >>> i) &&& 1 ≠ 0 then (sa.1.set_reg i ((read sa.2 4 : Nat) : Int), sa.2 + 4)
        else sa)
      (s, address)
    let s := sa.1
    let s := if wback then s.set_reg n (s.registers n + 4 * (bit_count register_list : Int)) else s
    (s, [])
  -- LDR (immediate)
  else if (opcode >>> 11) = 0b01101 then
    let n := (opcode >>> 3) &&& 0x7
    let t := opcode &&& 0x7
    let imm := ((opcode >>> 6) &&& 0x1F) <<< 2
    let address := s.registers n + (imm : Int)
    (s.set_reg t ((read address 4 : Nat) : Int), [])
  -- LDR immediate (T2)
  else if (opcode >>> 11) = 0b10011 then
    let t := (opcode >>> 8) &&& 0x7
    let imm32 := (opcode &&& 0xff) <<< 2
    let address := s.registers 13 + (imm32 : Int)
    (s.set_reg t ((read address 4 : Nat) : Int), [])
  -- LDR (literal)
  else if (opcode >>> 11) = 0b01001 then
    let t := (opcode >>> 8) &&& 0x7
    let imm := (opcode &&& 0xFF) <<< 2
    let base := Int.land (s.pc + 2) 0xfffffffc
    let address := base + (imm : Int)
    (s.set_reg t ((read address 4 : Nat) : Int), [])
  -- LDR (register)
  else if (opcode >>> 9) = 0b0101100 then
    let m := (opcode >>> 6) &&& 0x7
    let n := (opcode >>> 3) &&& 0x7
    let t := opcode &&& 0x7
    let address := s.registers n + s.registers m
    (s.set_reg t ((read address 4 : Nat) : Int), [])
  -- LDRB (immediate)
  else if (opcode >>> 11) = 0b01111 then
    let imm5 := (opcode >>> 6) &&& 0x1F
    let n := (opcode >>> 3) &&& 0x7
    let t := opcode &&& 0x7
    let address := s.registers n + (imm5 : Int)
    (s.set_reg t ((read address 1 : Nat) : Int), [])
  -- LDRB (register)
  else if (opcode >>> 9) = 0b0101110 then
    let m := (opcode >>> 6) &&& 0x7
    let n := (opcode >>> 3) &&& 0x7
    let t := opcode &&& 0x7
    let address := s.registers n + s.registers m
    (s.set_reg t ((read address 1 : Nat) : Int), [])
  -- LDRH (immediate)
  else if (opcode >>> 11) = 0b10001 then
    let imm5 := (opcode >>> 6) &&& 0x1F
    let n := (opcode >>> 3) &&& 0x7
    let t := opcode &&& 0x7
    let address := s.registers n + ((imm5 <<< 1 : Nat) : Int)
    (s.set_reg t ((read address 2 : Nat) : Int), [])
  -- LDRSB (register)
  else if (opcode >>> 9) = 0b0101011 then
    let m := (opcode >>> 6) &&& 0x7
    let n := (opcode >>> 3) &&& 0x7
    let t := opcode &&& 0x7
    let address := s.registers n + s.registers m
    (s.set_reg t (Int.land (sign_extend ((read address 1 : Nat) : Int) 8) 0xffffffff), [])
  -- LDRSH (register): the loaded halfword is stored as-is, with no
  -- sign extension
  else if (opcode >>> 9) = 0b0101111 then
    let m := (opcode >>> 6) &&& 0x7
    let n := (opcode >>> 3) &&& 0x7
    let t := opcode &&& 0x7
    let address := s.registers n + s.registers m
    (s.set_reg t ((read address 2 : Nat) : Int), [])
  -- LSLS (immediate)
  else if (opcode >>> 11) = 0b00000 then
    let m := (opcode >>> 3) &&& 0x07
    let d := opcode &&& 0x07
    let shift_n := (opcode >>> 6) &&& 0x1F
    let result := Int.land (s.registers m * 2 ^ shift_n) 0xffffffff
    let carry := Int.land (pyShr (s.registers m) (32 - shift_n)) 1
    let s := s.set_reg d result
    let s :=
      if d ≠ 15 then
        let s := s.set_apsr_n (int_bit31 result)
        let s := s.set_apsr_z (decide (result = 0))
        if shift_n > 0 then s.set_apsr_c (decide (carry ≠ 0)) else s
      else s
    (s, [])
  -- LSLS (register)
  else if (opcode >>> 6) = 0b0100000010 then
    let m := (opcode >>> 3) &&& 0x7
    let d := opcode &&& 0x7
    let shift_n := (Int.land (s.registers m) 0xFF).toNat
    let result := s.registers d * 2 ^ shift_n
    let s := s.set_reg d (Int.land result 0xFFFFFFFF)
    let s := s.set_apsr_n (int_bit31 result)
    let s := s.set_apsr_z (decide (result = 0))
    let s := if shift_n > 0 then s.set_apsr_c (decide (Int.land result 0x100000000 ≠ 0)) else s
    (s, [])
  -- LSR (immediate)
  else if (opcode >>> 11) = 0b00001 then
    let m := (opcode >>> 3) &&& 0x07
    let d := opcode &&& 0x07
    let imm5 := (opcode >>> 6) &&& 0x1F
    let shift_n := if imm5 ≠ 0 then imm5 else 32
    let result := pyShr (s.registers m) shift_n
    let s := s.set_reg d (Int.land result 0xFFFFFFFF)
    let s := s.set_apsr_n (int_bit31 result)
    let s := s.set_apsr_z (decide (result = 0))
    -- Python reads self.registers[m] after the assignment to registers[d]
    let s := s.set_apsr_c (decide (Int.land (pyShr (s.registers m) (shift_n - 1)) 1 ≠ 0))
    (s, [])
  -- LSR (register)
  else if (opcode >>> 6) = 0b0100000011 then
    let m := (opcode >>> 3) &&& 0x07
    let dn := opcode &&& 0x07
    let shift_n := (Int.land (s.registers m) 0xff).toNat
    let result := pyShr (s.registers dn) shift_n
    -- for shift_n = 0 Python raises on the negative shift below; the
    -- truncated `shift_n - 1 = 0` here is only reached on inputs where
    -- the Python program would crash
    let carry := Int.land (pyShr (s.registers dn) (shift_n - 1)) 1
    let s := s.set_reg dn (Int.land result 0xFFFFFFFF)
    let s := s.set_apsr_n (int_bit31 result)
    let s := s.set_apsr_z (decide (result = 0))
    let s := s.set_apsr_c (decide (carry ≠ 0))
    (s, [])
  -- MOV (immediate)
  else if (opcode >>> 11) = 0b00100 then
    let d := (opcode >>> 8) &&& 0x07
    let value := opcode &&& 0xFF
    let s := s.set_reg d (value : Int)
    let s := s.set_apsr_n (nat_bit31 value)
    let s := s.set_apsr_z (decide (value = 0))
    (s, [])
  -- MOV (register)
  else if (opcode >>> 8) = 0b01000110 then
    let d := ((opcode >>> 4) &&& 0x08) ||| (opcode &&& 0x7)
    let m := (opcode >>> 3) &&& 0xF
    let result := s.registers m
    if d ≠ 15 then (s.set_reg d result, [])
    else (s.set_pc (Int.land result 0xfffffffe), [])
  -- MRS
  else if opcode = 0b1111001111101111 ∧ (opcode2 >>> 12) = 0b1000 then
    let d := (opcode2 >>> 8) &&& 0xf
    (s.set_reg d 0, [])
  -- MSR
  else if (opcode >>> 5) = 0b11110011100 ∧ (opcode2 >>> 14) = 0b10 then
    let n := opcode &&& 0xf
    let sysm := opcode2 &&& 0xff
    if sysm >>> 3 = 1 then
      if sysm &&& 0x7 = 0 then (s.set_sp (Int.land (s.registers n) 0xfffffffc), [])
      else (s, [])
    else (s, [])
  -- MUL
  else if (opcode >>> 6) = 0b0100001101 then
    let dm := opcode &&& 0x7
    let n := (opcode >>> 3) &&& 0x7
    let result := Int.land (s.registers dm * s.registers n) 0xffffffff
    let s := s.set_reg dm result
    let s := s.set_apsr_n (int_bit31 result)
    let s := s.set_apsr_z (decide (result = 0))
    (s, [])
  -- MVN
  else if (opcode >>> 6) = 0b0100001111 then
    let m := (opcode >>> 3) &&& 0x7
    let d := opcode &&& 0x7
    let result := Int.land (Int.lnot (s.registers m)) 0xffffffff
    let s := s.set_reg d result
    let s := s.set_apsr_n (int_bit31 result)
    let s := s.set_apsr_z (decide (result = 0))
    (s, [])
  -- ORR
  else if (opcode >>> 6) = 0b0100001100 then
    let m := (opcode >>> 3) &&& 0x7
    let dn := opcode &&& 0x7
    let result := Int.lor (s.registers dn) (s.registers m)
    let s := s.set_reg dn result
    let s := s.set_apsr_n (int_bit31 result)
    let s := s.set_apsr_z (decide (result = 0))
    (s, [])
  -- POP
  else if (opcode >>> 9) = 0b1011110 then
    let p := (opcode >>> 8) &&& 0x1
    let register_list := (p <<< 15) ||| (opcode &&& 0xff)
    let address := s.sp
    let sa := (List.range 8).foldl
      (fun (sa : St × Int) i =>
        if register_list &&& (1 <<< i) ≠ 0 then (sa.1.set_reg i ((read sa.2 4 : Nat) : Int), sa.2 + 4)
        else sa)
      (s, address)
    let s := sa.1
    let s := if p ≠ 0 then s.set_pc (Int.land ((read sa.2 4 : Nat) : Int) 0xfffffffe) else s
    let s := s.set_sp (s.sp + 4 * (bit_count register_list : Int))
    (s, [])
  -- PUSH
  else if (opcode >>> 9) = 0b1011010 then
    let bitcount := bit_count (opcode &&& 0x1FF)
    let address := s.sp - 4 * (bitcount : Int)
    let aw := (List.range 8).foldl
      (fun (aw : Int × List MemWrite) i =>
        if opcode &&& (1 <<< i) ≠ 0 then
          (aw.1 + 4, aw.2 ++ [⟨aw.1, s.registers i, 4⟩])
        else aw)
      (address, [])
    let writes := if opcode &&& (1 <<< 8) ≠ 0 then aw.2 ++ [⟨aw.1, s.registers 14, 4⟩] else aw.2
    let s := s.set_sp (s.sp - 4 * (bitcount : Int))
    (s, writes)
  -- REV
  else if (opcode >>> 6) = 0b1011101000 then
    let m := (opcode >>> 3) &&& 0x7
    let d := opcode &&& 0x7
    let value := s.registers m
    let result := Int.land value 0xff * 2 ^ 24
    let result := Int.lor result (Int.land value 0xff00 * 2 ^ 8)
    let result := Int.lor result (pyShr (Int.land value 0xff0000) 8)
    let result := Int.lor result (pyShr (Int.land value 0xff000000) 24)
    (s.set_reg d result, [])
  -- RSB / NEG
  else if (opcode >>> 6) = 0b0100001001 then
    let n := (opcode >>> 3) &&& 0x7
    let d := opcode &&& 0x7
    let (result, c, v) := add_with_carry (Int.lnot (s.registers n)) 0 true
    let s := s.set_reg d (result : Int)
    let s := s.set_apsr_n (nat_bit31 result)
    let s := s.set_apsr_z (decide (result = 0))
    let s := s.set_apsr_c c
    let s := s.set_apsr_v v
    (s, [])
  -- SBC
  else if (opcode >>> 6) = 0b0100000110 then
    let m := (opcode >>> 3) &&& 0x7
    let dn := opcode &&& 0x7
    let (result, c, v) := add_with_carry (s.registers dn) (Int.lnot (s.registers m)) (apsr_c s.xpsr)
    let s := s.set_reg dn (result : Int)
    let s := s.set_apsr_n (nat_bit31 result)
    let s := s.set_apsr_z (decide (result = 0))
    let s := s.set_apsr_c c
    let s := s.set_apsr_v v
    (s, [])
  -- SEV
  else if opcode = 0b1011111101000000 then
    (s, [])
  -- STM
  else if (opcode >>> 11) = 0b11000 then
    let n := (opcode >>> 8) &&& 0x7
    let register_list := opcode &&& 0xff
    let address := s.registers n
    let aw := (List.range 8).foldl
      (fun (aw : Int × List MemWrite) i =>
        if (register_list >>> i) &&& 1 ≠ 0 then
          (aw.1 + 4, aw.2 ++ [⟨aw.1, s.registers i, 4⟩])
        else aw)
      (address, [])
    let s := s.set_reg n (s.registers n + 4 * (bit_count register_list : Int))
    (s, aw.2)
  -- STR immediate (T1)
  else if (opcode >>> 11) = 0b01100 then
    let n := (opcode >>> 3) &&& 0x7
    let t := opcode &&& 0x7
    let imm := ((opcode >>> 6) &&& 0x1F) <<< 2
    let address := s.registers n + (imm : Int)
    (s, [⟨address, s.registers t, 4⟩])
  -- STR immediate (T2)
  else if (opcode >>> 11) = 0b10010 then
    let t := (opcode >>> 8) &&& 0x7
    let imm32 := (opcode &&& 0xff) <<< 2
    let address := s.registers 13 + (imm32 : Int)
    (s, [⟨address, s.registers t, 4⟩])
  -- STR register
  else if (opcode >>> 9) = 0b0101000 then
    let m := (opcode >>> 6) &&& 0x7
    let n := (opcode >>> 3) &&& 0x7
    let t := opcode &&& 0x7
    let address := s.registers n + s.registers m
    (s, [⟨address, s.registers t, 4⟩])
  -- STRB immediate
  else if (opcode >>> 11) = 0b01110 then
    let imm5 := (opcode >>> 6) &&& 0x1f
    let n := (opcode >>> 3) &&& 0x7
    let t := opcode &&& 0x7
    let address := s.registers n + (imm5 : Int)
    (s, [⟨address, Int.land (s.registers t) 0xff, 1⟩])
  -- STRB register
  else if (opcode >>> 9) = 0b0101010 then
    let m := (opcode >>> 6) &&& 0x7
    let n := (opcode >>> 3) &&& 0x7
    let t := opcode &&& 0x7
    let address := s.registers n + s.registers m
    (s, [⟨address, Int.land (s.registers t) 0xff, 1⟩])
  -- STRH immediate
  else if (opcode >>> 11) = 0b10000 then
    let imm := ((opcode >>> 6) &&& 0x1f) <<< 1
    let n := (opcode >>> 3) &&& 0x7
    let t := opcode &&& 0x7
    let address := s.registers n + (imm : Int)
    (s, [⟨address, Int.land (s.registers t) 0xffff, 2⟩])
  -- STRH register
  else if (opcode >>> 9) = 0b0101001 then
    let m := (opcode >>> 6) &&& 0x7
    let n := (opcode >>> 3) &&& 0x7
    let t := opcode &&& 0x7
    let address := s.registers n + s.registers m
    (s, [⟨address, Int.land (s.registers t) 0xffff, 2⟩])
  -- SUB (immediate) T1
  else if (opcode >>> 9) = 0b0001111 then
    let d := opcode &&& 0x7
    let n := (opcode >>> 3) &&& 0x7
    let imm := (opcode >>> 6) &&& 0x7
    let (result, c, v) := add_with_carry (s.registers n) (Int.lnot (imm : Int)) true
    let s := s.set_reg d (result : Int)
    let s := s.set_apsr_n (nat_bit31 result)
    let s := s.set_apsr_z (decide (result = 0))
    let s := s.set_apsr_c c
    let s := s.set_apsr_v v
    (s, [])
  -- SUB (immediate) T2
  else if (opcode >>> 11) = 0b00111 then
    let dn := (opcode >>> 8) &&& 0x7
    let imm := opcode &&& 0xFF
    let (result, c, v) := add_with_carry (s.registers dn) (Int.lnot (imm : Int)) true
    let s := s.set_reg dn (result : Int)
    let s := s.set_apsr_n (nat_bit31 result)
    let s := s.set_apsr_z (decide (result = 0))
    let s := s.set_apsr_c c
    let s := s.set_apsr_v v
    (s, [])
  -- SUB (register) T1
  else if (opcode >>> 9) = 0b0001101 then
    let m := (opcode >>> 6) &&& 0x7
    let n := (opcode >>> 3) &&& 0x7
    let d := opcode &&& 0x7
    let (result, c, v) := add_with_carry (s.registers n) (Int.lnot (s.registers m)) true
    let s := s.set_reg d (result : Int)
    let s :=
      if d ≠ 15 then
        let s := s.set_apsr_n (nat_bit31 result)
        let s := s.set_apsr_z (decide (result = 0))
        let s := s.set_apsr_c c
        s.set_apsr_v v
      else s
    (s, [])
  -- SUB (SP minus immediate)
  else if (opcode >>> 7) = 0b101100001 then
    let imm32 := (opcode &&& 0x7F) <<< 2
    let (result, _, _) := add_with_carry s.sp (Int.lnot (imm32 : Int)) true
    (s.set_sp (result : Int), [])
  -- SXTB
  else if (opcode >>> 6) = 0b1011001001 then
    let d := opcode &&& 0x7
    let m := (opcode >>> 3) &&& 0x7
    (s.set_reg d (Int.land (sign_extend (Int.land (s.registers m) 0xFF) 8) 0xffffffff), [])
  -- TST
  else if (opcode >>> 6) = 0b0100001000 then
    let n := opcode &&& 0x7
    let m := (opcode >>> 3) &&& 0x7
    let result := Int.land (s.registers n) (s.registers m)
    let s := s.set_apsr_n (int_bit31 result)
    let s := s.set_apsr_z (decide (result = 0))
    (s, [])
  -- UXTB
  else if (opcode >>> 6) = 0b1011001011 then
    let d := opcode &&& 0x7
    let m := (opcode >>> 3) &&& 0x7
    (s.set_reg d (Int.land (s.registers m) 0xFF), [])
  -- UXTH
  else if (opcode >>> 6) = 0b1011001010 then
    let d := opcode &&& 0x7
    let m := (opcode >>> 3) &&& 0x7
    (s.set_reg d (Int.land (s.registers m) 0xFFFF), [])
  -- WFE
  else if opcode = 0b1011111100100000 then
    (s, [])
  -- Instruction not implemented
  else
    (on_break 42 s, [])

/-- `Rp2040.stop`. -/
def St.stop (s : St) : St := { s with stopped := true }

/-- `Rp2040.on_break_default`: `self.stop(); self.stop_reason = reason`. -/
def on_break_default (reason : Nat) (s : St) : St :=
  { s.stop with stop_reason := reason }

/-- The GDB stub's `on_break_callback` from `gdbserver.py`, restricted to
its effect on the CPU state (the `S05` stop-reply queued to the client and
the socket notification are I/O outside the model):
```
def on_break_callback(reason):
    rp.on_break_default(reason)
    if reason == 190:
        rp.pc = rp.pc_previous
    ...
```
-/
def on_break_callback (reason : Nat) (s : St) : St :=
  let s := on_break_default reason s
  if reason = 190 then s.set_pc s.pc_previous else s

/-- The loop body of `Rp2040.execute`: `while not self.stopped:
execute_instruction()`, with an explicit fuel bound on the number of
iterations (the Python loop is unbounded). -/
def execute_loop (read : Int → Nat → Nat) (on_break : Nat → St → St) :
    Nat → St → St
  | 0, s => s
  | fuel + 1, s =>
    if ¬ s.stopped then
      execute_loop read on_break fuel (execute_instruction read on_break s).1
    else s

/-- `Rp2040.execute`: `self.stopped = False` and then the loop. -/
def execute (read : Int → Nat → Nat) (on_break : Nat → St → St)
    (fuel : Nat) (s : St) : St :=
  execute_loop read on_break fuel { s with stopped := false }

/-- The result register of `add_with_carry` always fits in 32 bits. -/
theorem add_with_carry_fst_lt (x y : Int) (c : Bool) :
    (add_with_carry x y c).1 < 2 ^ 32 := by
  show (mask32 x + mask32 y + c.toNat) &&& 0xFFFFFFFF < 2 ^ 32
  have h : (mask32 x + mask32 y + c.toNat) &&& 0xFFFFFFFF ≤ 0xFFFFFFFF := Nat.and_le_right
  omega

/-- Cast form of `add_with_carry_fst_lt`. -/
theorem add_with_carry_fst_bounds (x y : Int) (c : Bool) :
    0 ≤ ((add_with_carry x y c).1 : Int) ∧ ((add_with_carry x y c).1 : Int) < 4294967296 := by
  have h := add_with_carry_fst_lt x y c
  exact ⟨Int.natCast_nonneg _, by omega⟩

theorem set_apsr_n_registers (s : St) (b : Bool) : (s.set_apsr_n b).registers = s.registers := by
  unfold St.set_apsr_n
  split <;> rfl

theorem set_apsr_z_registers (s : St) (b : Bool) : (s.set_apsr_z b).registers = s.registers := by
  unfold St.set_apsr_z
  split <;> rfl

theorem set_apsr_c_registers (s : St) (b : Bool) : (s.set_apsr_c b).registers = s.registers := by
  unfold St.set_apsr_c
  split <;> rfl

theorem set_apsr_v_registers (s : St) (b : Bool) : (s.set_apsr_v b).registers = s.registers := by
  unfold St.set_apsr_v
  split <;> rfl

theorem set_reg_registers (s : St) (i : Nat) (v : Int) :
    (s.set_reg i v).registers = fun j => if j = i then v else s.registers j := rfl

/-- C10: `execute` clears the `stopped` flag before first testing it, so
`stop(); execute()` runs exactly like `execute()` from the same state. -/
theorem claim_C10 (read : Int → Nat → Nat) (on_break : Nat → St → St)
    (fuel : Nat) (s : St) :
    execute read on_break fuel s.stop = execute read on_break fuel s := by
  cases s
  rfl

/-- A concrete CPU state for the C3 counterexample: `r0 = r1 = 0x80000000`,
everything else zero. -/
def c3_state : St :=
  { registers := fun i => if i = 0 then 0x80000000 else if i = 1 then 0x80000000 else 0,
    xpsr := 0, primask_pm := false, stopped := false, stop_reason := 0, pc_previous := 0 }

/-- C3 counterexample: executing the ADD (register) T2 instruction
`0x4408` (`add r0, r1`) from a state whose registers all fit in 32 bits
leaves `r0 = 2^32`, violating `registers[i] < 2^32`. -/
theorem claim_C3_counterexample :
    (execute_instruction (fun _ n => if n = 2 then 0x4408 else 0) on_break_default
      c3_state).1.registers 0 = 2 ^ 32 ∧
    ¬ ((execute_instruction (fun _ n => if n = 2 then 0x4408 else 0) on_break_default
      c3_state).1.registers 0 < 2 ^ 32) := by
  constructor
  · decide
  · decide

/-- The opcode prefixes of the `execute_instruction` branches whose
register writes all go through `add_with_carry` (in the order the Python
`if/elif` chain tests them): ADC, ADD (immediate) T1/T2, ADD (register)
T1, ADD (SP plus immediate) T1/T2, CMP (immediate), CMP (register) T1/T2
(which write no register at all), RSB, SBC, SUB (immediate) T1/T2,
SUB (register) T1 and SUB (SP minus immediate). -/
def awc_instruction (opcode : Nat) : Prop :=
  (opcode >>> 6) = 0b0100000101 ∨
  (opcode >>> 9) = 0b0001110 ∨
  (opcode >>> 11) = 0b00110 ∨
  (opcode >>> 9) = 0b0001100 ∨
  (opcode >>> 11) = 0b10101 ∨
  (opcode >>> 7) = 0b101100000 ∨
  (opcode >>> 11) = 0b00101 ∨
  (opcode >>> 6) = 0b0100001010 ∨
  (opcode >>> 8) = 0b01000101 ∨
  (opcode >>> 6) = 0b0100001001 ∨
  (opcode >>> 6) = 0b0100000110 ∨
  (opcode >>> 9) = 0b0001111 ∨
  (opcode >>> 11) = 0b00111 ∨
  (opcode >>> 9) = 0b0001101 ∨
  (opcode >>> 7) = 0b101100001

/-- C3 (amended): ADD (register) T2 stores a raw register sum and can
leave a register at `2^32` or above, so the 32-bit invariant fails there.
Every instruction whose register writes go through `add_with_carry` does
preserve it: from a state with all registers in `[0, 2^32)` and
`pc + 2 < 2^32`, executing any instruction of `awc_instruction` (ADC, the
ADD immediate/register/SP forms, CMP, RSB, SBC, the SUB forms) leaves
every register in `[0, 2^32)`. -/
theorem claim_C3 (read : Int → Nat → Nat) (on_break : Nat → St → St) (s : St)
    (hreg : ∀ i, 0 ≤ s.registers i ∧ s.registers i < 2 ^ 32)
    (hpc : s.pc + 2 < 2 ^ 32)
    (hop : awc_instruction (read s.pc 2)) :
    ∀ i, 0 ≤ (execute_instruction read on_break s).1.registers i ∧
         (execute_instruction read on_break s).1.registers i < 2 ^ 32 := by
  unfold awc_instruction at hop
  simp only [St.pc] at hop hpc
  intro i
  rcases hop with h|h|h|h|h|h|h|h|h|h|h|h|h|h|h
  · -- chain position 1
    have hf : ¬(read (s.registers 15) 2 >>> 12 = 0b1111) := by omega
    simp [execute_instruction, h, hf,
      set_apsr_n_registers, set_apsr_z_registers, set_apsr_c_registers,
      set_apsr_v_registers, set_reg_registers, St.set_pc, St.set_sp, St.sp, St.pc]
    by_cases hi : i = read (s.registers 15) 2 &&& 7
    · simp [hi]
      simpa using add_with_carry_fst_lt _ _ _
    · simp only [if_neg hi]
      by_cases hi15 : i = 15
      · subst hi15
        simp only [if_pos rfl]
        have h15 := hreg 15
        exact ⟨by omega, by omega⟩
      · simp only [if_neg hi15]
        exact hreg i
  · -- chain position 2
    have hf : ¬(read (s.registers 15) 2 >>> 12 = 0b1111) := by omega
    have hg1 : ¬((read (s.registers 15) 2 >>> 6) = 0b0100000101) := by omega
    simp [execute_instruction, h, hf, hg1,
      set_apsr_n_registers, set_apsr_z_registers, set_apsr_c_registers,
      set_apsr_v_registers, set_reg_registers, St.set_pc, St.set_sp, St.sp, St.pc]
    by_cases hi : i = read (s.registers 15) 2 &&& 7
    · simp [hi]
      simpa using add_with_carry_fst_lt _ _ _
    · simp only [if_neg hi]
      by_cases hi15 : i = 15
      · subst hi15
        simp only [if_pos rfl]
        have h15 := hreg 15
        exact ⟨by omega, by omega⟩
      · simp only [if_neg hi15]
        exact hreg i
  · -- chain position 3
    have hf : ¬(read (s.registers 15) 2 >>> 12 = 0b1111) := by omega
    have hg1 : ¬((read (s.registers 15) 2 >>> 6) = 0b0100000101) := by omega
    have hg2 : ¬((read (s.registers 15) 2 >>> 9) = 0b0001110) := by omega
    simp [execute_instruction, h, hf, hg1, hg2,
      set_apsr_n_registers, set_apsr_z_registers, set_apsr_c_registers,
      set_apsr_v_registers, set_reg_registers, St.set_pc, St.set_sp, St.sp, St.pc]
    by_cases hi : i = read (s.registers 15) 2 >>> 8 &&& 7
    · simp [hi]
      simpa using add_with_carry_fst_lt _ _ _
    · simp only [if_neg hi]
      by_cases hi15 : i = 15
      · subst hi15
        simp only [if_pos rfl]
        have h15 := hreg 15
        exact ⟨by omega, by omega⟩
      · simp only [if_neg hi15]
        exact hreg i
  · -- chain position 4
    have hf : ¬(read (s.registers 15) 2 >>> 12 = 0b1111) := by omega
    have hg1 : ¬((read (s.registers 15) 2 >>> 6) = 0b0100000101) := by omega
    have hg2 : ¬((read (s.registers 15) 2 >>> 9) = 0b0001110) := by omega
    have hg3 : ¬((read (s.registers 15) 2 >>> 11) = 0b00110) := by omega
    have hd : ¬(read (s.registers 15) 2 &&& 0x7 = 15) := by
      have hle : read (s.registers 15) 2 &&& 0x7 ≤ 7 := Nat.and_le_right
      omega
    simp [execute_instruction, h, hf, hg1, hg2, hg3, hd,
      set_apsr_n_registers, set_apsr_z_registers, set_apsr_c_registers,
      set_apsr_v_registers, set_reg_registers, St.set_pc, St.set_sp, St.sp, St.pc]
    by_cases hi : i = read (s.registers 15) 2 &&& 7
    · simp [hi]
      simpa using add_with_carry_fst_lt _ _ _
    · simp only [if_neg hi]
      by_cases hi15 : i = 15
      · subst hi15
        simp only [if_pos rfl]
        have h15 := hreg 15
        exact ⟨by omega, by omega⟩
      · simp only [if_neg hi15]
        exact hreg i
  · -- chain position 6
    have hf : ¬(read (s.registers 15) 2 >>> 12 = 0b1111) := by omega
    have hg1 : ¬((read (s.registers 15) 2 >>> 6) = 0b0100000101) := by omega
    have hg2 : ¬((read (s.registers 15) 2 >>> 9) = 0b0001110) := by omega
    have hg3 : ¬((read (s.registers 15) 2 >>> 11) = 0b00110) := by omega
    have hg4 : ¬((read (s.registers 15) 2 >>> 9) = 0b0001100) := by omega
    have hg5 : ¬((read (s.registers 15) 2 >>> 8) = 0b01000100) := by omega
    simp [execute_instruction, h, hf, hg1, hg2, hg3, hg4, hg5,
      set_apsr_n_registers, set_apsr_z_registers, set_apsr_c_registers,
      set_apsr_v_registers, set_reg_registers, St.set_pc, St.set_sp, St.sp, St.pc]
    by_cases hi : i = read (s.registers 15) 2 >>> 8 &&& 7
    · simp [hi]
      simpa using add_with_carry_fst_lt _ _ _
    · simp only [if_neg hi]
      by_cases hi15 : i = 15
      · subst hi15
        simp only [if_pos rfl]
        have h15 := hreg 15
        exact ⟨by omega, by omega⟩
      · simp only [if_neg hi15]
        exact hreg i
  · -- chain position 7
    have hf : ¬(read (s.registers 15) 2 >>> 12 = 0b1111) := by omega
    have hg1 : ¬((read (s.registers 15) 2 >>> 6) = 0b0100000101) := by omega
    have hg2 : ¬((read (s.registers 15) 2 >>> 9) = 0b0001110) := by omega
    have hg3 : ¬((read (s.registers 15) 2 >>> 11) = 0b00110) := by omega
    have hg4 : ¬((read (s.registers 15) 2 >>> 9) = 0b0001100) := by omega
    have hg5 : ¬((read (s.registers 15) 2 >>> 8) = 0b01000100) := by omega
    have hg6 : ¬((read (s.registers 15) 2 >>> 11) = 0b10101) := by omega
    simp [execute_instruction, h, hf, hg1, hg2, hg3, hg4, hg5, hg6,
      set_apsr_n_registers, set_apsr_z_registers, set_apsr_c_registers,
      set_apsr_v_registers, set_reg_registers, St.set_pc, St.set_sp, St.sp, St.pc]
    by_cases hi : i = 13
    · simp [hi]
      simpa using add_with_carry_fst_lt _ _ _
    · simp only [if_neg hi]
      by_cases hi15 : i = 15
      · subst hi15
        simp only [if_pos rfl]
        have h15 := hreg 15
        exact ⟨by omega, by omega⟩
      · simp only [if_neg hi15]
        exact hreg i
  · -- chain position 18
    have hf : ¬(read (s.registers 15) 2 >>> 12 = 0b1111) := by omega
    have hg1 : ¬((read (s.registers 15) 2 >>> 6) = 0b0100000101) := by omega
    have hg2 : ¬((read (s.registers 15) 2 >>> 9) = 0b0001110) := by omega
    have hg3 : ¬((read (s.registers 15) 2 >>> 11) = 0b00110) := by omega
    have hg4 : ¬((read (s.registers 15) 2 >>> 9) = 0b0001100) := by omega
    have hg5 : ¬((read (s.registers 15) 2 >>> 8) = 0b01000100) := by omega
    have hg6 : ¬((read (s.registers 15) 2 >>> 11) = 0b10101) := by omega
    have hg7 : ¬((read (s.registers 15) 2 >>> 7) = 0b101100000) := by omega
    have hg8 : ¬((read (s.registers 15) 2 >>> 11) = 0b10100) := by omega
    have hg9 : ¬((read (s.registers 15) 2 >>> 6) = 0b0100000000) := by omega
    have hg10 : ¬((read (s.registers 15) 2 >>> 11) = 0b00010) := by omega
    have hg11 : ¬((read (s.registers 15) 2 >>> 12) = 0b1101) := by omega
    have hg12 : ¬((read (s.registers 15) 2 >>> 11) = 0b11100) := by omega
    have hg13 : ¬((read (s.registers 15) 2 >>> 6) = 0b0100001110) := by omega
    have hg14 : ¬((read (s.registers 15) 2 >>> 8) = 0b10111110) := by omega
    have hg16 : ¬((read (s.registers 15) 2 >>> 7) = 0b010001111) := by omega
    have hg17 : ¬((read (s.registers 15) 2 >>> 7) = 0b010001110) := by omega
    simp [execute_instruction, h, hf, hg1, hg2, hg3, hg4, hg5, hg6, hg7, hg8, hg9, hg10, hg11, hg12, hg13, hg14, hg16, hg17,
      set_apsr_n_registers, set_apsr_z_registers, set_apsr_c_registers,
      set_apsr_v_registers, set_reg_registers, St.set_pc, St.set_sp, St.sp, St.pc]
    by_cases hi15 : i = 15
    · subst hi15
      simp only [if_pos rfl]
      have h15 := hreg 15
      exact ⟨by omega, by omega⟩
    · simp only [if_neg hi15]
      exact hreg i
  · -- chain position 19
    have hf : ¬(read (s.registers 15) 2 >>> 12 = 0b1111) := by omega
    have hg1 : ¬((read (s.registers 15) 2 >>> 6) = 0b0100000101) := by omega
    have hg2 : ¬((read (s.registers 15) 2 >>> 9) = 0b0001110) := by omega
    have hg3 : ¬((read (s.registers 15) 2 >>> 11) = 0b00110) := by omega
    have hg4 : ¬((read (s.registers 15) 2 >>> 9) = 0b0001100) := by omega
    have hg5 : ¬((read (s.registers 15) 2 >>> 8) = 0b01000100) := by omega
    have hg6 : ¬((read (s.registers 15) 2 >>> 11) = 0b10101) := by omega
    have hg7 : ¬((read (s.registers 15) 2 >>> 7) = 0b101100000) := by omega
    have hg8 : ¬((read (s.registers 15) 2 >>> 11) = 0b10100) := by omega
    have hg9 : ¬((read (s.registers 15) 2 >>> 6) = 0b0100000000) := by omega
    have hg10 : ¬((read (s.registers 15) 2 >>> 11) = 0b00010) := by omega
    have hg11 : ¬((read (s.registers 15) 2 >>> 12) = 0b1101) := by omega
    have hg12 : ¬((read (s.registers 15) 2 >>> 11) = 0b11100) := by omega
    have hg13 : ¬((read (s.registers 15) 2 >>> 6) = 0b0100001110) := by omega
    have hg14 : ¬((read (s.registers 15) 2 >>> 8) = 0b10111110) := by omega
    have hg16 : ¬((read (s.registers 15) 2 >>> 7) = 0b010001111) := by omega
    have hg17 : ¬((read (s.registers 15) 2 >>> 7) = 0b010001110) := by omega
    have hg18 : ¬((read (s.registers 15) 2 >>> 11) = 0b00101) := by omega
    simp [execute_instruction, h, hf, hg1, hg2, hg3, hg4, hg5, hg6, hg7, hg8, hg9, hg10, hg11, hg12, hg13, hg14, hg16, hg17, hg18,
      set_apsr_n_registers, set_apsr_z_registers, set_apsr_c_registers,
      set_apsr_v_registers, set_reg_registers, St.set_pc, St.set_sp, St.sp, St.pc]
    by_cases hi15 : i = 15
    · subst hi15
      simp only [if_pos rfl]
      have h15 := hreg 15
      exact ⟨by omega, by omega⟩
    · simp only [if_neg hi15]
      exact hreg i
  · -- chain position 20
    have hf : ¬(read (s.registers 15) 2 >>> 12 = 0b1111) := by omega
    have hg1 : ¬((read (s.registers 15) 2 >>> 6) = 0b0100000101) := by omega
    have hg2 : ¬((read (s.registers 15) 2 >>> 9) = 0b0001110) := by omega
    have hg3 : ¬((read (s.registers 15) 2 >>> 11) = 0b00110) := by omega
    have hg4 : ¬((read (s.registers 15) 2 >>> 9) = 0b0001100) := by omega
    have hg5 : ¬((read (s.registers 15) 2 >>> 8) = 0b01000100) := by omega
    have hg6 : ¬((read (s.registers 15) 2 >>> 11) = 0b10101) := by omega
    have hg7 : ¬((read (s.registers 15) 2 >>> 7) = 0b101100000) := by omega
    have hg8 : ¬((read (s.registers 15) 2 >>> 11) = 0b10100) := by omega
    have hg9 : ¬((read (s.registers 15) 2 >>> 6) = 0b0100000000) := by omega
    have hg10 : ¬((read (s.registers 15) 2 >>> 11) = 0b00010) := by omega
    have hg11 : ¬((read (s.registers 15) 2 >>> 12) = 0b1101) := by omega
    have hg12 : ¬((read (s.registers 15) 2 >>> 11) = 0b11100) := by omega
    have hg13 : ¬((read (s.registers 15) 2 >>> 6) = 0b0100001110) := by omega
    have hg14 : ¬((read (s.registers 15) 2 >>> 8) = 0b10111110) := by omega
    have hg16 : ¬((read (s.registers 15) 2 >>> 7) = 0b010001111) := by omega
    have hg17 : ¬((read (s.registers 15) 2 >>> 7) = 0b010001110) := by omega
    have hg18 : ¬((read (s.registers 15) 2 >>> 11) = 0b00101) := by omega
    have hg19 : ¬((read (s.registers 15) 2 >>> 6) = 0b0100001010) := by omega
    simp [execute_instruction, h, hf, hg1, hg2, hg3, hg4, hg5, hg6, hg7, hg8, hg9, hg10, hg11, hg12, hg13, hg14, hg16, hg17, hg18, hg19,
      set_apsr_n_registers, set_apsr_z_registers, set_apsr_c_registers,
      set_apsr_v_registers, set_reg_registers, St.set_pc, St.set_sp, St.sp, St.pc]
    by_cases hi15 : i = 15
    · subst hi15
      simp only [if_pos rfl]
      have h15 := hreg 15
      exact ⟨by omega, by omega⟩
    · simp only [if_neg hi15]
      exact hreg i
  · -- chain position 48
    have hf : ¬(read (s.registers 15) 2 >>> 12 = 0b1111) := by omega
    have hg1 : ¬((read (s.registers 15) 2 >>> 6) = 0b0100000101) := by omega
    have hg2 : ¬((read (s.registers 15) 2 >>> 9) = 0b0001110) := by omega
    have hg3 : ¬((read (s.registers 15) 2 >>> 11) = 0b00110) := by omega
    have hg4 : ¬((read (s.registers 15) 2 >>> 9) = 0b0001100) := by omega
    have hg5 : ¬((read (s.registers 15) 2 >>> 8) = 0b01000100) := by omega
    have hg6 : ¬((read (s.registers 15) 2 >>> 11) = 0b10101) := by omega
    have hg7 : ¬((read (s.registers 15) 2 >>> 7) = 0b101100000) := by omega
    have hg8 : ¬((read (s.registers 15) 2 >>> 11) = 0b10100) := by omega
    have hg9 : ¬((read (s.registers 15) 2 >>> 6) = 0b0100000000) := by omega
    have hg10 : ¬((read (s.registers 15) 2 >>> 11) = 0b00010) := by omega
    have hg11 : ¬((read (s.registers 15) 2 >>> 12) = 0b1101) := by omega
    have hg12 : ¬((read (s.registers 15) 2 >>> 11) = 0b11100) := by omega
    have hg13 : ¬((read (s.registers 15) 2 >>> 6) = 0b0100001110) := by omega
    have hg14 : ¬((read (s.registers 15) 2 >>> 8) = 0b10111110) := by omega
    have hg16 : ¬((read (s.registers 15) 2 >>> 7) = 0b010001111) := by omega
    have hg17 : ¬((read (s.registers 15) 2 >>> 7) = 0b010001110) := by omega
    have hg18 : ¬((read (s.registers 15) 2 >>> 11) = 0b00101) := by omega
    have hg19 : ¬((read (s.registers 15) 2 >>> 6) = 0b0100001010) := by omega
    have hg20 : ¬((read (s.registers 15) 2 >>> 8) = 0b01000101) := by omega
    have hg21 : ¬((read (s.registers 15) 2 >>> 5) = 0b10110110011) := by omega
    have hg23 : ¬((read (s.registers 15) 2 >>> 6) = 0b0100000001) := by omega
    have hg24 : ¬((read (s.registers 15) 2 >>> 11) = 0b11001) := by omega
    have hg25 : ¬((read (s.registers 15) 2 >>> 11) = 0b01101) := by omega
    have hg26 : ¬((read (s.registers 15) 2 >>> 11) = 0b10011) := by omega
    have hg27 : ¬((read (s.registers 15) 2 >>> 11) = 0b01001) := by omega
    have hg28 : ¬((read (s.registers 15) 2 >>> 9) = 0b0101100) := by omega
    have hg29 : ¬((read (s.registers 15) 2 >>> 11) = 0b01111) := by omega
    have hg30 : ¬((read (s.registers 15) 2 >>> 9) = 0b0101110) := by omega
    have hg31 : ¬((read (s.registers 15) 2 >>> 11) = 0b10001) := by omega
    have hg32 : ¬((read (s.registers 15) 2 >>> 9) = 0b0101011) := by omega
    have hg33 : ¬((read (s.registers 15) 2 >>> 9) = 0b0101111) := by omega
    have hg34 : ¬((read (s.registers 15) 2 >>> 11) = 0b00000) := by omega
    have hg35 : ¬((read (s.registers 15) 2 >>> 6) = 0b0100000010) := by omega
    have hg36 : ¬((read (s.registers 15) 2 >>> 11) = 0b00001) := by omega
    have hg37 : ¬((read (s.registers 15) 2 >>> 6) = 0b0100000011) := by omega
    have hg38 : ¬((read (s.registers 15) 2 >>> 11) = 0b00100) := by omega
    have hg39 : ¬((read (s.registers 15) 2 >>> 8) = 0b01000110) := by omega
    have hg42 : ¬((read (s.registers 15) 2 >>> 6) = 0b0100001101) := by omega
    have hg43 : ¬((read (s.registers 15) 2 >>> 6) = 0b0100001111) := by omega
    have hg44 : ¬((read (s.registers 15) 2 >>> 6) = 0b0100001100) := by omega
    have hg45 : ¬((read (s.registers 15) 2 >>> 9) = 0b1011110) := by omega
    have hg46 : ¬((read (s.registers 15) 2 >>> 9) = 0b1011010) := by omega
    have hg47 : ¬((read (s.registers 15) 2 >>> 6) = 0b1011101000) := by omega
    simp [execute_instruction, h, hf, hg1, hg2, hg3, hg4, hg5, hg6, hg7, hg8, hg9, hg10, hg11, hg12, hg13, hg14, hg16, hg17, hg18, hg19, hg20, hg21, hg23, hg24, hg25, hg26, hg27, hg28, hg29, hg30, hg31, hg32, hg33, hg34, hg35, hg36, hg37, hg38, hg39, hg42, hg43, hg44, hg45, hg46, hg47,
      set_apsr_n_registers, set_apsr_z_registers, set_apsr_c_registers,
      set_apsr_v_registers, set_reg_registers, St.set_pc, St.set_sp, St.sp, St.pc]
    by_cases hi : i = read (s.registers 15) 2 &&& 7
    · simp [hi]
      simpa using add_with_carry_fst_lt _ _ _
    · simp only [if_neg hi]
      by_cases hi15 : i = 15
      · subst hi15
        simp only [if_pos rfl]
        have h15 := hreg 15
        exact ⟨by omega, by omega⟩
      · simp only [if_neg hi15]
        exact hreg i
  · -- chain position 49
    have hf : ¬(read (s.registers 15) 2 >>> 12 = 0b1111) := by omega
    have hg1 : ¬((read (s.registers 15) 2 >>> 6) = 0b0100000101) := by omega
    have hg2 : ¬((read (s.registers 15) 2 >>> 9) = 0b0001110) := by omega
    have hg3 : ¬((read (s.registers 15) 2 >>> 11) = 0b00110) := by omega
    have hg4 : ¬((read (s.registers 15) 2 >>> 9) = 0b0001100) := by omega
    have hg5 : ¬((read (s.registers 15) 2 >>> 8) = 0b01000100) := by omega
    have hg6 : ¬((read (s.registers 15) 2 >>> 11) = 0b10101) := by omega
    have hg7 : ¬((read (s.registers 15) 2 >>> 7) = 0b101100000) := by omega
    have hg8 : ¬((read (s.registers 15) 2 >>> 11) = 0b10100) := by omega
    have hg9 : ¬((read (s.registers 15) 2 >>> 6) = 0b0100000000) := by omega
    have hg10 : ¬((read (s.registers 15) 2 >>> 11) = 0b00010) := by omega
    have hg11 : ¬((read (s.registers 15) 2 >>> 12) = 0b1101) := by omega
    have hg12 : ¬((read (s.registers 15) 2 >>> 11) = 0b11100) := by omega
    have hg13 : ¬((read (s.registers 15) 2 >>> 6) = 0b0100001110) := by omega
    have hg14 : ¬((read (s.registers 15) 2 >>> 8) = 0b10111110) := by omega
    have hg16 : ¬((read (s.registers 15) 2 >>> 7) = 0b010001111) := by omega
    have hg17 : ¬((read (s.registers 15) 2 >>> 7) = 0b010001110) := by omega
    have hg18 : ¬((read (s.registers 15) 2 >>> 11) = 0b00101) := by omega
    have hg19 : ¬((read (s.registers 15) 2 >>> 6) = 0b0100001010) := by omega
    have hg20 : ¬((read (s.registers 15) 2 >>> 8) = 0b01000101) := by omega
    have hg21 : ¬((read (s.registers 15) 2 >>> 5) = 0b10110110011) := by omega
    have hg23 : ¬((read (s.registers 15) 2 >>> 6) = 0b0100000001) := by omega
    have hg24 : ¬((read (s.registers 15) 2 >>> 11) = 0b11001) := by omega
    have hg25 : ¬((read (s.registers 15) 2 >>> 11) = 0b01101) := by omega
    have hg26 : ¬((read (s.registers 15) 2 >>> 11) = 0b10011) := by omega
    have hg27 : ¬((read (s.registers 15) 2 >>> 11) = 0b01001) := by omega
    have hg28 : ¬((read (s.registers 15) 2 >>> 9) = 0b0101100) := by omega
    have hg29 : ¬((read (s.registers 15) 2 >>> 11) = 0b01111) := by omega
    have hg30 : ¬((read (s.registers 15) 2 >>> 9) = 0b0101110) := by omega
    have hg31 : ¬((read (s.registers 15) 2 >>> 11) = 0b10001) := by omega
    have hg32 : ¬((read (s.registers 15) 2 >>> 9) = 0b0101011) := by omega
    have hg33 : ¬((read (s.registers 15) 2 >>> 9) = 0b0101111) := by omega
    have hg34 : ¬((read (s.registers 15) 2 >>> 11) = 0b00000) := by omega
    have hg35 : ¬((read (s.registers 15) 2 >>> 6) = 0b0100000010) := by omega
    have hg36 : ¬((read (s.registers 15) 2 >>> 11) = 0b00001) := by omega
    have hg37 : ¬((read (s.registers 15) 2 >>> 6) = 0b0100000011) := by omega
    have hg38 : ¬((read (s.registers 15) 2 >>> 11) = 0b00100) := by omega
    have hg39 : ¬((read (s.registers 15) 2 >>> 8) = 0b01000110) := by omega
    have hg42 : ¬((read (s.registers 15) 2 >>> 6) = 0b0100001101) := by omega
    have hg43 : ¬((read (s.registers 15) 2 >>> 6) = 0b0100001111) := by omega
    have hg44 : ¬((read (s.registers 15) 2 >>> 6) = 0b0100001100) := by omega
    have hg45 : ¬((read (s.registers 15) 2 >>> 9) = 0b1011110) := by omega
    have hg46 : ¬((read (s.registers 15) 2 >>> 9) = 0b1011010) := by omega
    have hg47 : ¬((read (s.registers 15) 2 >>> 6) = 0b1011101000) := by omega
    have hg48 : ¬((read (s.registers 15) 2 >>> 6) = 0b0100001001) := by omega
    simp [execute_instruction, h, hf, hg1, hg2, hg3, hg4, hg5, hg6, hg7, hg8, hg9, hg10, hg11, hg12, hg13, hg14, hg16, hg17, hg18, hg19, hg20, hg21, hg23, hg24, hg25, hg26, hg27, hg28, hg29, hg30, hg31, hg32, hg33, hg34, hg35, hg36, hg37, hg38, hg39, hg42, hg43, hg44, hg45, hg46, hg47, hg48,
      set_apsr_n_registers, set_apsr_z_registers, set_apsr_c_registers,
      set_apsr_v_registers, set_reg_registers, St.set_pc, St.set_sp, St.sp, St.pc]
    by_cases hi : i = read (s.registers 15) 2 &&& 7
    · simp [hi]
      simpa using add_with_carry_fst_lt _ _ _
    · simp only [if_neg hi]
      by_cases hi15 : i = 15
      · subst hi15
        simp only [if_pos rfl]
        have h15 := hreg 15
        exact ⟨by omega, by omega⟩
      · simp only [if_neg hi15]
        exact hreg i
  · -- chain position 59
    have hf : ¬(read (s.registers 15) 2 >>> 12 = 0b1111) := by omega
    have hg1 : ¬((read (s.registers 15) 2 >>> 6) = 0b0100000101) := by omega
    have hg2 : ¬((read (s.registers 15) 2 >>> 9) = 0b0001110) := by omega
    have hg3 : ¬((read (s.registers 15) 2 >>> 11) = 0b00110) := by omega
    have hg4 : ¬((read (s.registers 15) 2 >>> 9) = 0b0001100) := by omega
    have hg5 : ¬((read (s.registers 15) 2 >>> 8) = 0b01000100) := by omega
    have hg6 : ¬((read (s.registers 15) 2 >>> 11) = 0b10101) := by omega
    have hg7 : ¬((read (s.registers 15) 2 >>> 7) = 0b101100000) := by omega
    have hg8 : ¬((read (s.registers 15) 2 >>> 11) = 0b10100) := by omega
    have hg9 : ¬((read (s.registers 15) 2 >>> 6) = 0b0100000000) := by omega
    have hg10 : ¬((read (s.registers 15) 2 >>> 11) = 0b00010) := by omega
    have hg11 : ¬((read (s.registers 15) 2 >>> 12) = 0b1101) := by omega
    have hg12 : ¬((read (s.registers 15) 2 >>> 11) = 0b11100) := by omega
    have hg13 : ¬((read (s.registers 15) 2 >>> 6) = 0b0100001110) := by omega
    have hg14 : ¬((read (s.registers 15) 2 >>> 8) = 0b10111110) := by omega
    have hg16 : ¬((read (s.registers 15) 2 >>> 7) = 0b010001111) := by omega
    have hg17 : ¬((read (s.registers 15) 2 >>> 7) = 0b010001110) := by omega
    have hg18 : ¬((read (s.registers 15) 2 >>> 11) = 0b00101) := by omega
    have hg19 : ¬((read (s.registers 15) 2 >>> 6) = 0b0100001010) := by omega
    have hg20 : ¬((read (s.registers 15) 2 >>> 8) = 0b01000101) := by omega
    have hg21 : ¬((read (s.registers 15) 2 >>> 5) = 0b10110110011) := by omega
    have hg23 : ¬((read (s.registers 15) 2 >>> 6) = 0b0100000001) := by omega
    have hg24 : ¬((read (s.registers 15) 2 >>> 11) = 0b11001) := by omega
    have hg25 : ¬((read (s.registers 15) 2 >>> 11) = 0b01101) := by omega
    have hg26 : ¬((read (s.registers 15) 2 >>> 11) = 0b10011) := by omega
    have hg27 : ¬((read (s.registers 15) 2 >>> 11) = 0b01001) := by omega
    have hg28 : ¬((read (s.registers 15) 2 >>> 9) = 0b0101100) := by omega
    have hg29 : ¬((read (s.registers 15) 2 >>> 11) = 0b01111) := by omega
    have hg30 : ¬((read (s.registers 15) 2 >>> 9) = 0b0101110) := by omega
    have hg31 : ¬((read (s.registers 15) 2 >>> 11) = 0b10001) := by omega
    have hg32 : ¬((read (s.registers 15) 2 >>> 9) = 0b0101011) := by omega
    have hg33 : ¬((read (s.registers 15) 2 >>> 9) = 0b0101111) := by omega
    have hg34 : ¬((read (s.registers 15) 2 >>> 11) = 0b00000) := by omega
    have hg35 : ¬((read (s.registers 15) 2 >>> 6) = 0b0100000010) := by omega
    have hg36 : ¬((read (s.registers 15) 2 >>> 11) = 0b00001) := by omega
    have hg37 : ¬((read (s.registers 15) 2 >>> 6) = 0b0100000011) := by omega
    have hg38 : ¬((read (s.registers 15) 2 >>> 11) = 0b00100) := by omega
    have hg39 : ¬((read (s.registers 15) 2 >>> 8) = 0b01000110) := by omega
    have hg42 : ¬((read (s.registers 15) 2 >>> 6) = 0b0100001101) := by omega
    have hg43 : ¬((read (s.registers 15) 2 >>> 6) = 0b0100001111) := by omega
    have hg44 : ¬((read (s.registers 15) 2 >>> 6) = 0b0100001100) := by omega
    have hg45 : ¬((read (s.registers 15) 2 >>> 9) = 0b1011110) := by omega
    have hg46 : ¬((read (s.registers 15) 2 >>> 9) = 0b1011010) := by omega
    have hg47 : ¬((read (s.registers 15) 2 >>> 6) = 0b1011101000) := by omega
    have hg48 : ¬((read (s.registers 15) 2 >>> 6) = 0b0100001001) := by omega
    have hg49 : ¬((read (s.registers 15) 2 >>> 6) = 0b0100000110) := by omega
    have hg50 : ¬(read (s.registers 15) 2 = 0b1011111101000000) := by omega
    have hg51 : ¬((read (s.registers 15) 2 >>> 11) = 0b11000) := by omega
    have hg52 : ¬((read (s.registers 15) 2 >>> 11) = 0b01100) := by omega
    have hg53 : ¬((read (s.registers 15) 2 >>> 11) = 0b10010) := by omega
    have hg54 : ¬((read (s.registers 15) 2 >>> 9) = 0b0101000) := by omega
    have hg55 : ¬((read (s.registers 15) 2 >>> 11) = 0b01110) := by omega
    have hg56 : ¬((read (s.registers 15) 2 >>> 9) = 0b0101010) := by omega
    have hg57 : ¬((read (s.registers 15) 2 >>> 11) = 0b10000) := by omega
    have hg58 : ¬((read (s.registers 15) 2 >>> 9) = 0b0101001) := by omega
    simp [execute_instruction, h, hf, hg1, hg2, hg3, hg4, hg5, hg6, hg7, hg8, hg9, hg10, hg11, hg12, hg13, hg14, hg16, hg17, hg18, hg19, hg20, hg21, hg23, hg24, hg25, hg26, hg27, hg28, hg29, hg30, hg31, hg32, hg33, hg34, hg35, hg36, hg37, hg38, hg39, hg42, hg43, hg44, hg45, hg46, hg47, hg48, hg49, hg50, hg51, hg52, hg53, hg54, hg55, hg56, hg57, hg58,
      set_apsr_n_registers, set_apsr_z_registers, set_apsr_c_registers,
      set_apsr_v_registers, set_reg_registers, St.set_pc, St.set_sp, St.sp, St.pc]
    by_cases hi : i = read (s.registers 15) 2 &&& 7
    · simp [hi]
      simpa using add_with_carry_fst_lt _ _ _
    · simp only [if_neg hi]
      by_cases hi15 : i = 15
      · subst hi15
        simp only [if_pos rfl]
        have h15 := hreg 15
        exact ⟨by omega, by omega⟩
      · simp only [if_neg hi15]
        exact hreg i
  · -- chain position 60
    have hf : ¬(read (s.registers 15) 2 >>> 12 = 0b1111) := by omega
    have hg1 : ¬((read (s.registers 15) 2 >>> 6) = 0b0100000101) := by omega
    have hg2 : ¬((read (s.registers 15) 2 >>> 9) = 0b0001110) := by omega
    have hg3 : ¬((read (s.registers 15) 2 >>> 11) = 0b00110) := by omega
    have hg4 : ¬((read (s.registers 15) 2 >>> 9) = 0b0001100) := by omega
    have hg5 : ¬((read (s.registers 15) 2 >>> 8) = 0b01000100) := by omega
    have hg6 : ¬((read (s.registers 15) 2 >>> 11) = 0b10101) := by omega
    have hg7 : ¬((read (s.registers 15) 2 >>> 7) = 0b101100000) := by omega
    have hg8 : ¬((read (s.registers 15) 2 >>> 11) = 0b10100) := by omega
    have hg9 : ¬((read (s.registers 15) 2 >>> 6) = 0b0100000000) := by omega
    have hg10 : ¬((read (s.registers 15) 2 >>> 11) = 0b00010) := by omega
    have hg11 : ¬((read (s.registers 15) 2 >>> 12) = 0b1101) := by omega
    have hg12 : ¬((read (s.registers 15) 2 >>> 11) = 0b11100) := by omega
    have hg13 : ¬((read (s.registers 15) 2 >>> 6) = 0b0100001110) := by omega
    have hg14 : ¬((read (s.registers 15) 2 >>> 8) = 0b10111110) := by omega
    have hg16 : ¬((read (s.registers 15) 2 >>> 7) = 0b010001111) := by omega
    have hg17 : ¬((read (s.registers 15) 2 >>> 7) = 0b010001110) := by omega
    have hg18 : ¬((read (s.registers 15) 2 >>> 11) = 0b00101) := by omega
    have hg19 : ¬((read (s.registers 15) 2 >>> 6) = 0b0100001010) := by omega
    have hg20 : ¬((read (s.registers 15) 2 >>> 8) = 0b01000101) := by omega
    have hg21 : ¬((read (s.registers 15) 2 >>> 5) = 0b10110110011) := by omega
    have hg23 : ¬((read (s.registers 15) 2 >>> 6) = 0b0100000001) := by omega
    have hg24 : ¬((read (s.registers 15) 2 >>> 11) = 0b11001) := by omega
    have hg25 : ¬((read (s.registers 15) 2 >>> 11) = 0b01101) := by omega
    have hg26 : ¬((read (s.registers 15) 2 >>> 11) = 0b10011) := by omega
    have hg27 : ¬((read (s.registers 15) 2 >>> 11) = 0b01001) := by omega
    have hg28 : ¬((read (s.registers 15) 2 >>> 9) = 0b0101100) := by omega
    have hg29 : ¬((read (s.registers 15) 2 >>> 11) = 0b01111) := by omega
    have hg30 : ¬((read (s.registers 15) 2 >>> 9) = 0b0101110) := by omega
    have hg31 : ¬((read (s.registers 15) 2 >>> 11) = 0b10001) := by omega
    have hg32 : ¬((read (s.registers 15) 2 >>> 9) = 0b0101011) := by omega
    have hg33 : ¬((read (s.registers 15) 2 >>> 9) = 0b0101111) := by omega
    have hg34 : ¬((read (s.registers 15) 2 >>> 11) = 0b00000) := by omega
    have hg35 : ¬((read (s.registers 15) 2 >>> 6) = 0b0100000010) := by omega
    have hg36 : ¬((read (s.registers 15) 2 >>> 11) = 0b00001) := by omega
    have hg37 : ¬((read (s.registers 15) 2 >>> 6) = 0b0100000011) := by omega
    have hg38 : ¬((read (s.registers 15) 2 >>> 11) = 0b00100) := by omega
    have hg39 : ¬((read (s.registers 15) 2 >>> 8) = 0b01000110) := by omega
    have hg42 : ¬((read (s.registers 15) 2 >>> 6) = 0b0100001101) := by omega
    have hg43 : ¬((read (s.registers 15) 2 >>> 6) = 0b0100001111) := by omega
    have hg44 : ¬((read (s.registers 15) 2 >>> 6) = 0b0100001100) := by omega
    have hg45 : ¬((read (s.registers 15) 2 >>> 9) = 0b1011110) := by omega
    have hg46 : ¬((read (s.registers 15) 2 >>> 9) = 0b1011010) := by omega
    have hg47 : ¬((read (s.registers 15) 2 >>> 6) = 0b1011101000) := by omega
    have hg48 : ¬((read (s.registers 15) 2 >>> 6) = 0b0100001001) := by omega
    have hg49 : ¬((read (s.registers 15) 2 >>> 6) = 0b0100000110) := by omega
    have hg50 : ¬(read (s.registers 15) 2 = 0b1011111101000000) := by omega
    have hg51 : ¬((read (s.registers 15) 2 >>> 11) = 0b11000) := by omega
    have hg52 : ¬((read (s.registers 15) 2 >>> 11) = 0b01100) := by omega
    have hg53 : ¬((read (s.registers 15) 2 >>> 11) = 0b10010) := by omega
    have hg54 : ¬((read (s.registers 15) 2 >>> 9) = 0b0101000) := by omega
    have hg55 : ¬((read (s.registers 15) 2 >>> 11) = 0b01110) := by omega
    have hg56 : ¬((read (s.registers 15) 2 >>> 9) = 0b0101010) := by omega
    have hg57 : ¬((read (s.registers 15) 2 >>> 11) = 0b10000) := by omega
    have hg58 : ¬((read (s.registers 15) 2 >>> 9) = 0b0101001) := by omega
    have hg59 : ¬((read (s.registers 15) 2 >>> 9) = 0b0001111) := by omega
    simp [execute_instruction, h, hf, hg1, hg2, hg3, hg4, hg5, hg6, hg7, hg8, hg9, hg10, hg11, hg12, hg13, hg14, hg16, hg17, hg18, hg19, hg20, hg21, hg23, hg24, hg25, hg26, hg27, hg28, hg29, hg30, hg31, hg32, hg33, hg34, hg35, hg36, hg37, hg38, hg39, hg42, hg43, hg44, hg45, hg46, hg47, hg48, hg49, hg50, hg51, hg52, hg53, hg54, hg55, hg56, hg57, hg58, hg59,
      set_apsr_n_registers, set_apsr_z_registers, set_apsr_c_registers,
      set_apsr_v_registers, set_reg_registers, St.set_pc, St.set_sp, St.sp, St.pc]
    by_cases hi : i = read (s.registers 15) 2 >>> 8 &&& 7
    · simp [hi]
      simpa using add_with_carry_fst_lt _ _ _
    · simp only [if_neg hi]
      by_cases hi15 : i = 15
      · subst hi15
        simp only [if_pos rfl]
        have h15 := hreg 15
        exact ⟨by omega, by omega⟩
      · simp only [if_neg hi15]
        exact hreg i
  · -- chain position 61
    have hf : ¬(read (s.registers 15) 2 >>> 12 = 0b1111) := by omega
    have hg1 : ¬((read (s.registers 15) 2 >>> 6) = 0b0100000101) := by omega
    have hg2 : ¬((read (s.registers 15) 2 >>> 9) = 0b0001110) := by omega
    have hg3 : ¬((read (s.registers 15) 2 >>> 11) = 0b00110) := by omega
    have hg4 : ¬((read (s.registers 15) 2 >>> 9) = 0b0001100) := by omega
    have hg5 : ¬((read (s.registers 15) 2 >>> 8) = 0b01000100) := by omega
    have hg6 : ¬((read (s.registers 15) 2 >>> 11) = 0b10101) := by omega
    have hg7 : ¬((read (s.registers 15) 2 >>> 7) = 0b101100000) := by omega
    have hg8 : ¬((read (s.registers 15) 2 >>> 11) = 0b10100) := by omega
    have hg9 : ¬((read (s.registers 15) 2 >>> 6) = 0b0100000000) := by omega
    have hg10 : ¬((read (s.registers 15) 2 >>> 11) = 0b00010) := by omega
    have hg11 : ¬((read (s.registers 15) 2 >>> 12) = 0b1101) := by omega
    have hg12 : ¬((read (s.registers 15) 2 >>> 11) = 0b11100) := by omega
    have hg13 : ¬((read (s.registers 15) 2 >>> 6) = 0b0100001110) := by omega
    have hg14 : ¬((read (s.registers 15) 2 >>> 8) = 0b10111110) := by omega
    have hg16 : ¬((read (s.registers 15) 2 >>> 7) = 0b010001111) := by omega
    have hg17 : ¬((read (s.registers 15) 2 >>> 7) = 0b010001110) := by omega
    have hg18 : ¬((read (s.registers 15) 2 >>> 11) = 0b00101) := by omega
    have hg19 : ¬((read (s.registers 15) 2 >>> 6) = 0b0100001010) := by omega
    have hg20 : ¬((read (s.registers 15) 2 >>> 8) = 0b01000101) := by omega
    have hg21 : ¬((read (s.registers 15) 2 >>> 5) = 0b10110110011) := by omega
    have hg23 : ¬((read (s.registers 15) 2 >>> 6) = 0b0100000001) := by omega
    have hg24 : ¬((read (s.registers 15) 2 >>> 11) = 0b11001) := by omega
    have hg25 : ¬((read (s.registers 15) 2 >>> 11) = 0b01101) := by omega
    have hg26 : ¬((read (s.registers 15) 2 >>> 11) = 0b10011) := by omega
    have hg27 : ¬((read (s.registers 15) 2 >>> 11) = 0b01001) := by omega
    have hg28 : ¬((read (s.registers 15) 2 >>> 9) = 0b0101100) := by omega
    have hg29 : ¬((read (s.registers 15) 2 >>> 11) = 0b01111) := by omega
    have hg30 : ¬((read (s.registers 15) 2 >>> 9) = 0b0101110) := by omega
    have hg31 : ¬((read (s.registers 15) 2 >>> 11) = 0b10001) := by omega
    have hg32 : ¬((read (s.registers 15) 2 >>> 9) = 0b0101011) := by omega
    have hg33 : ¬((read (s.registers 15) 2 >>> 9) = 0b0101111) := by omega
    have hg34 : ¬((read (s.registers 15) 2 >>> 11) = 0b00000) := by omega
    have hg35 : ¬((read (s.registers 15) 2 >>> 6) = 0b0100000010) := by omega
    have hg36 : ¬((read (s.registers 15) 2 >>> 11) = 0b00001) := by omega
    have hg37 : ¬((read (s.registers 15) 2 >>> 6) = 0b0100000011) := by omega
    have hg38 : ¬((read (s.registers 15) 2 >>> 11) = 0b00100) := by omega
    have hg39 : ¬((read (s.registers 15) 2 >>> 8) = 0b01000110) := by omega
    have hg42 : ¬((read (s.registers 15) 2 >>> 6) = 0b0100001101) := by omega
    have hg43 : ¬((read (s.registers 15) 2 >>> 6) = 0b0100001111) := by omega
    have hg44 : ¬((read (s.registers 15) 2 >>> 6) = 0b0100001100) := by omega
    have hg45 : ¬((read (s.registers 15) 2 >>> 9) = 0b1011110) := by omega
    have hg46 : ¬((read (s.registers 15) 2 >>> 9) = 0b1011010) := by omega
    have hg47 : ¬((read (s.registers 15) 2 >>> 6) = 0b1011101000) := by omega
    have hg48 : ¬((read (s.registers 15) 2 >>> 6) = 0b0100001001) := by omega
    have hg49 : ¬((read (s.registers 15) 2 >>> 6) = 0b0100000110) := by omega
    have hg50 : ¬(read (s.registers 15) 2 = 0b1011111101000000) := by omega
    have hg51 : ¬((read (s.registers 15) 2 >>> 11) = 0b11000) := by omega
    have hg52 : ¬((read (s.registers 15) 2 >>> 11) = 0b01100) := by omega
    have hg53 : ¬((read (s.registers 15) 2 >>> 11) = 0b10010) := by omega
    have hg54 : ¬((read (s.registers 15) 2 >>> 9) = 0b0101000) := by omega
    have hg55 : ¬((read (s.registers 15) 2 >>> 11) = 0b01110) := by omega
    have hg56 : ¬((read (s.registers 15) 2 >>> 9) = 0b0101010) := by omega
    have hg57 : ¬((read (s.registers 15) 2 >>> 11) = 0b10000) := by omega
    have hg58 : ¬((read (s.registers 15) 2 >>> 9) = 0b0101001) := by omega
    have hg59 : ¬((read (s.registers 15) 2 >>> 9) = 0b0001111) := by omega
    have hg60 : ¬((read (s.registers 15) 2 >>> 11) = 0b00111) := by omega
    have hd : ¬(read (s.registers 15) 2 &&& 0x7 = 15) := by
      have hle : read (s.registers 15) 2 &&& 0x7 ≤ 7 := Nat.and_le_right
      omega
    simp [execute_instruction, h, hf, hg1, hg2, hg3, hg4, hg5, hg6, hg7, hg8, hg9, hg10, hg11, hg12, hg13, hg14, hg16, hg17, hg18, hg19, hg20, hg21, hg23, hg24, hg25, hg26, hg27, hg28, hg29, hg30, hg31, hg32, hg33, hg34, hg35, hg36, hg37, hg38, hg39, hg42, hg43, hg44, hg45, hg46, hg47, hg48, hg49, hg50, hg51, hg52, hg53, hg54, hg55, hg56, hg57, hg58, hg59, hg60, hd,
      set_apsr_n_registers, set_apsr_z_registers, set_apsr_c_registers,
      set_apsr_v_registers, set_reg_registers, St.set_pc, St.set_sp, St.sp, St.pc]
    by_cases hi : i = read (s.registers 15) 2 &&& 7
    · simp [hi]
      simpa using add_with_carry_fst_lt _ _ _
    · simp only [if_neg hi]
      by_cases hi15 : i = 15
      · subst hi15
        simp only [if_pos rfl]
        have h15 := hreg 15
        exact ⟨by omega, by omega⟩
      · simp only [if_neg hi15]
        exact hreg i
  · -- chain position 62
    have hf : ¬(read (s.registers 15) 2 >>> 12 = 0b1111) := by omega
    have hg1 : ¬((read (s.registers 15) 2 >>> 6) = 0b0100000101) := by omega
    have hg2 : ¬((read (s.registers 15) 2 >>> 9) = 0b0001110) := by omega
    have hg3 : ¬((read (s.registers 15) 2 >>> 11) = 0b00110) := by omega
    have hg4 : ¬((read (s.registers 15) 2 >>> 9) = 0b0001100) := by omega
    have hg5 : ¬((read (s.registers 15) 2 >>> 8) = 0b01000100) := by omega
    have hg6 : ¬((read (s.registers 15) 2 >>> 11) = 0b10101) := by omega
    have hg7 : ¬((read (s.registers 15) 2 >>> 7) = 0b101100000) := by omega
    have hg8 : ¬((read (s.registers 15) 2 >>> 11) = 0b10100) := by omega
    have hg9 : ¬((read (s.registers 15) 2 >>> 6) = 0b0100000000) := by omega
    have hg10 : ¬((read (s.registers 15) 2 >>> 11) = 0b00010) := by omega
    have hg11 : ¬((read (s.registers 15) 2 >>> 12) = 0b1101) := by omega
    have hg12 : ¬((read (s.registers 15) 2 >>> 11) = 0b11100) := by omega
    have hg13 : ¬((read (s.registers 15) 2 >>> 6) = 0b0100001110) := by omega
    have hg14 : ¬((read (s.registers 15) 2 >>> 8) = 0b10111110) := by omega
    have hg16 : ¬((read (s.registers 15) 2 >>> 7) = 0b010001111) := by omega
    have hg17 : ¬((read (s.registers 15) 2 >>> 7) = 0b010001110) := by omega
    have hg18 : ¬((read (s.registers 15) 2 >>> 11) = 0b00101) := by omega
    have hg19 : ¬((read (s.registers 15) 2 >>> 6) = 0b0100001010) := by omega
    have hg20 : ¬((read (s.registers 15) 2 >>> 8) = 0b01000101) := by omega
    have hg21 : ¬((read (s.registers 15) 2 >>> 5) = 0b10110110011) := by omega
    have hg23 : ¬((read (s.registers 15) 2 >>> 6) = 0b0100000001) := by omega
    have hg24 : ¬((read (s.registers 15) 2 >>> 11) = 0b11001) := by omega
    have hg25 : ¬((read (s.registers 15) 2 >>> 11) = 0b01101) := by omega
    have hg26 : ¬((read (s.registers 15) 2 >>> 11) = 0b10011) := by omega
    have hg27 : ¬((read (s.registers 15) 2 >>> 11) = 0b01001) := by omega
    have hg28 : ¬((read (s.registers 15) 2 >>> 9) = 0b0101100) := by omega
    have hg29 : ¬((read (s.registers 15) 2 >>> 11) = 0b01111) := by omega
    have hg30 : ¬((read (s.registers 15) 2 >>> 9) = 0b0101110) := by omega
    have hg31 : ¬((read (s.registers 15) 2 >>> 11) = 0b10001) := by omega
    have hg32 : ¬((read (s.registers 15) 2 >>> 9) = 0b0101011) := by omega
    have hg33 : ¬((read (s.registers 15) 2 >>> 9) = 0b0101111) := by omega
    have hg34 : ¬((read (s.registers 15) 2 >>> 11) = 0b00000) := by omega
    have hg35 : ¬((read (s.registers 15) 2 >>> 6) = 0b0100000010) := by omega
    have hg36 : ¬((read (s.registers 15) 2 >>> 11) = 0b00001) := by omega
    have hg37 : ¬((read (s.registers 15) 2 >>> 6) = 0b0100000011) := by omega
    have hg38 : ¬((read (s.registers 15) 2 >>> 11) = 0b00100) := by omega
    have hg39 : ¬((read (s.registers 15) 2 >>> 8) = 0b01000110) := by omega
    have hg42 : ¬((read (s.registers 15) 2 >>> 6) = 0b0100001101) := by omega
    have hg43 : ¬((read (s.registers 15) 2 >>> 6) = 0b0100001111) := by omega
    have hg44 : ¬((read (s.registers 15) 2 >>> 6) = 0b0100001100) := by omega
    have hg45 : ¬((read (s.registers 15) 2 >>> 9) = 0b1011110) := by omega
    have hg46 : ¬((read (s.registers 15) 2 >>> 9) = 0b1011010) := by omega
    have hg47 : ¬((read (s.registers 15) 2 >>> 6) = 0b1011101000) := by omega
    have hg48 : ¬((read (s.registers 15) 2 >>> 6) = 0b0100001001) := by omega
    have hg49 : ¬((read (s.registers 15) 2 >>> 6) = 0b0100000110) := by omega
    have hg50 : ¬(read (s.registers 15) 2 = 0b1011111101000000) := by omega
    have hg51 : ¬((read (s.registers 15) 2 >>> 11) = 0b11000) := by omega
    have hg52 : ¬((read (s.registers 15) 2 >>> 11) = 0b01100) := by omega
    have hg53 : ¬((read (s.registers 15) 2 >>> 11) = 0b10010) := by omega
    have hg54 : ¬((read (s.registers 15) 2 >>> 9) = 0b0101000) := by omega
    have hg55 : ¬((read (s.registers 15) 2 >>> 11) = 0b01110) := by omega
    have hg56 : ¬((read (s.registers 15) 2 >>> 9) = 0b0101010) := by omega
    have hg57 : ¬((read (s.registers 15) 2 >>> 11) = 0b10000) := by omega
    have hg58 : ¬((read (s.registers 15) 2 >>> 9) = 0b0101001) := by omega
    have hg59 : ¬((read (s.registers 15) 2 >>> 9) = 0b0001111) := by omega
    have hg60 : ¬((read (s.registers 15) 2 >>> 11) = 0b00111) := by omega
    have hg61 : ¬((read (s.registers 15) 2 >>> 9) = 0b0001101) := by omega
    simp [execute_instruction, h, hf, hg1, hg2, hg3, hg4, hg5, hg6, hg7, hg8, hg9, hg10, hg11, hg12, hg13, hg14, hg16, hg17, hg18, hg19, hg20, hg21, hg23, hg24, hg25, hg26, hg27, hg28, hg29, hg30, hg31, hg32, hg33, hg34, hg35, hg36, hg37, hg38, hg39, hg42, hg43, hg44, hg45, hg46, hg47, hg48, hg49, hg50, hg51, hg52, hg53, hg54, hg55, hg56, hg57, hg58, hg59, hg60, hg61,
      set_apsr_n_registers, set_apsr_z_registers, set_apsr_c_registers,
      set_apsr_v_registers, set_reg_registers, St.set_pc, St.set_sp, St.sp, St.pc]
    by_cases hi : i = 13
    · simp [hi]
      simpa using add_with_carry_fst_lt _ _ _
    · simp only [if_neg hi]
      by_cases hi15 : i = 15
      · subst hi15
        simp only [if_pos rfl]
        have h15 := hreg 15
        exact ⟨by omega, by omega⟩
      · simp only [if_neg hi15]
        exact hreg i

/-- C3 witness input: the all-zero CPU state. -/
def zero_state : St :=
  { registers := fun _ => 0, xpsr := 0, primask_pm := false, stopped := false,
    stop_reason := 0, pc_previous := 0 }

/-- C3 witness: a concrete instantiation of `claim_C3` (an ADC at PC 0). -/
theorem claim_C3_witness :
    0 ≤ (execute_instruction (fun _ n => if n = 2 then 0x4140 else 0) on_break_default
      zero_state).1.registers 0 ∧
    (execute_instruction (fun _ n => if n = 2 then 0x4140 else 0) on_break_default
      zero_state).1.registers 0 < 2 ^ 32 :=
  claim_C3 (fun _ n => if n = 2 then 0x4140 else 0) on_break_default zero_state
    (fun _ => ⟨le_refl 0, by norm_num [zero_state]⟩)
    (by norm_num [zero_state, St.pc])
    (by unfold awc_instruction; exact Or.inl (by decide)) 0

/-- The CPU state for the C5 counterexample: `r3 = 0x618`, the rest zero. -/
def c5_state : St :=
  { registers := fun i => if i = 3 then 0x618 else 0, xpsr := 0, primask_pm := false,
    stopped := false, stop_reason := 0, pc_previous := 0 }

/-- The bus for the C5 counterexample: opcode `0x5f5d` (`ldrsh r5, [r3, r5]`)
at address 0, halfword `0xcafe` at address `0x618`. -/
def c5_read : Int → Nat → Nat :=
  fun a n => if n = 2 ∧ a = 0 then 0x5f5d else if n = 2 ∧ a = 0x618 then 0xcafe else 0

/-- C5 counterexample: `ldrsh r5, [r3, r5]` loads halfword `0xcafe`, whose
bit 15 is set, yet stores `0x0000cafe`: bit 16 of the result is clear, so
the result is not sign-extended. -/
theorem claim_C5_counterexample :
    (execute_instruction c5_read on_break_default c5_state).1.registers 5 = 0xcafe ∧
    (0xcafe : Nat).testBit 15 = true ∧
    ((execute_instruction c5_read on_break_default c5_state).1.registers 5).toNat.testBit 16
      = false := by
  refine ⟨by decide, by decide, by decide⟩

/-- C5 (amended): every LDRSH (register) instruction (opcode prefix
`0101111`; `t = opcode[2:0]`, `n = opcode[5:3]`, `m = opcode[8:6]`) loads
the halfword at `R[n]+R[m]` and stores it zero-extended into `R[t]`:
`R[t]` equals the raw halfword read from the bus, which is below `2^16`,
so bits 16..31 of `R[t]` are clear even when bit 15 of the halfword is
set. -/
theorem claim_C5 (read : Int → Nat → Nat) (on_break : Nat → St → St) (s : St)
    (hop : read s.pc 2 >>> 9 = 0b0101111)
    (hb : ∀ a n, read a n < 2 ^ (8 * n)) :
    (execute_instruction read on_break s).1.registers (read s.pc 2 &&& 0x7) =
      ((read (s.registers ((read s.pc 2 >>> 3) &&& 0x7)
          + s.registers ((read s.pc 2 >>> 6) &&& 0x7)) 2 : Nat) : Int) ∧
    (execute_instruction read on_break s).1.registers (read s.pc 2 &&& 0x7) < 2 ^ 16 := by
  simp only [St.pc] at hop ⊢
  have h2 := hb (s.registers ((read (s.registers 15) 2 >>> 3) &&& 0x7)
      + s.registers ((read (s.registers 15) 2 >>> 6) &&& 0x7)) 2
  norm_num at h2
  have hf : ¬(read (s.registers 15) 2 >>> 12 = 0b1111) := by omega
  have hg1 : ¬((read (s.registers 15) 2 >>> 6) = 0b0100000101) := by omega
  have hg2 : ¬((read (s.registers 15) 2 >>> 9) = 0b0001110) := by omega
  have hg3 : ¬((read (s.registers 15) 2 >>> 11) = 0b00110) := by omega
  have hg4 : ¬((read (s.registers 15) 2 >>> 9) = 0b0001100) := by omega
  have hg5 : ¬((read (s.registers 15) 2 >>> 8) = 0b01000100) := by omega
  have hg6 : ¬((read (s.registers 15) 2 >>> 11) = 0b10101) := by omega
  have hg7 : ¬((read (s.registers 15) 2 >>> 7) = 0b101100000) := by omega
  have hg8 : ¬((read (s.registers 15) 2 >>> 11) = 0b10100) := by omega
  have hg9 : ¬((read (s.registers 15) 2 >>> 6) = 0b0100000000) := by omega
  have hg10 : ¬((read (s.registers 15) 2 >>> 11) = 0b00010) := by omega
  have hg11 : ¬((read (s.registers 15) 2 >>> 12) = 0b1101) := by omega
  have hg12 : ¬((read (s.registers 15) 2 >>> 11) = 0b11100) := by omega
  have hg13 : ¬((read (s.registers 15) 2 >>> 6) = 0b0100001110) := by omega
  have hg14 : ¬((read (s.registers 15) 2 >>> 8) = 0b10111110) := by omega
  have hg16 : ¬((read (s.registers 15) 2 >>> 7) = 0b010001111) := by omega
  have hg17 : ¬((read (s.registers 15) 2 >>> 7) = 0b010001110) := by omega
  have hg18 : ¬((read (s.registers 15) 2 >>> 11) = 0b00101) := by omega
  have hg19 : ¬((read (s.registers 15) 2 >>> 6) = 0b0100001010) := by omega
  have hg20 : ¬((read (s.registers 15) 2 >>> 8) = 0b01000101) := by omega
  have hg21 : ¬((read (s.registers 15) 2 >>> 5) = 0b10110110011) := by omega
  have hg23 : ¬((read (s.registers 15) 2 >>> 6) = 0b0100000001) := by omega
  have hg24 : ¬((read (s.registers 15) 2 >>> 11) = 0b11001) := by omega
  have hg25 : ¬((read (s.registers 15) 2 >>> 11) = 0b01101) := by omega
  have hg26 : ¬((read (s.registers 15) 2 >>> 11) = 0b10011) := by omega
  have hg27 : ¬((read (s.registers 15) 2 >>> 11) = 0b01001) := by omega
  have hg28 : ¬((read (s.registers 15) 2 >>> 9) = 0b0101100) := by omega
  have hg29 : ¬((read (s.registers 15) 2 >>> 11) = 0b01111) := by omega
  have hg30 : ¬((read (s.registers 15) 2 >>> 9) = 0b0101110) := by omega
  have hg31 : ¬((read (s.registers 15) 2 >>> 11) = 0b10001) := by omega
  have hg32 : ¬((read (s.registers 15) 2 >>> 9) = 0b0101011) := by omega
  have hn15 : ¬((read (s.registers 15) 2 >>> 3) &&& 0x7 = 15) := by
    have hle : (read (s.registers 15) 2 >>> 3) &&& 0x7 ≤ 7 := Nat.and_le_right
    omega
  have hm15 : ¬((read (s.registers 15) 2 >>> 6) &&& 0x7 = 15) := by
    have hle : (read (s.registers 15) 2 >>> 6) &&& 0x7 ≤ 7 := Nat.and_le_right
    omega
  simp [execute_instruction, hop, hf, hg1, hg2, hg3, hg4, hg5, hg6, hg7, hg8, hg9, hg10, hg11, hg12, hg13, hg14, hg16, hg17, hg18, hg19, hg20, hg21, hg23, hg24, hg25, hg26, hg27, hg28, hg29, hg30, hg31, hg32, hn15, hm15,
    set_reg_registers, St.set_pc, St.pc]
  omega

/-- C5 witness: a concrete instantiation of `claim_C5` at opcode `0x5f5d`
(`ldrsh r5, [r3, r5]`). -/
theorem claim_C5_witness :
    (execute_instruction c5_read on_break_default c5_state).1.registers
        (c5_read c5_state.pc 2 &&& 0x7) =
      ((c5_read (c5_state.registers ((c5_read c5_state.pc 2 >>> 3) &&& 0x7)
          + c5_state.registers ((c5_read c5_state.pc 2 >>> 6) &&& 0x7)) 2 : Nat) : Int) ∧
    (execute_instruction c5_read on_break_default c5_state).1.registers
        (c5_read c5_state.pc 2 &&& 0x7) < 2 ^ 16 :=
  claim_C5 c5_read on_break_default c5_state (by decide)
    (by
      intro a n
      by_cases h2 : n = 2
      · subst h2
        by_cases ha0 : a = 0
        · simp [c5_read, ha0]
        · by_cases ha6 : a = 0x618 <;> simp [c5_read, ha0, ha6]
      · simp only [c5_read, h2, false_and, if_false]
        exact pow_pos (by norm_num) _)

/-- C7 counterexample: from the all-zero state, the unknown opcode `0xde00`
makes the executor call `on_break(42)`; the GDB callback halts with
`stop_reason = 42` but does not rewind PC: the final PC is 2, past the
faulting instruction at `pc_previous = 0`. -/
theorem claim_C7_counterexample :
    (execute_instruction (fun _ n => if n = 2 then 0xde00 else 0) on_break_callback
      zero_state).1.stopped = true ∧
    (execute_instruction (fun _ n => if n = 2 then 0xde00 else 0) on_break_callback
      zero_state).1.stop_reason = 42 ∧
    (execute_instruction (fun _ n => if n = 2 then 0xde00 else 0) on_break_callback
      zero_state).1.pc = 2 ∧
    (execute_instruction (fun _ n => if n = 2 then 0xde00 else 0) on_break_callback
      zero_state).1.pc_previous = 0 ∧
    ¬ ((execute_instruction (fun _ n => if n = 2 then 0xde00 else 0) on_break_callback
      zero_state).1.pc =
       (execute_instruction (fun _ n => if n = 2 then 0xde00 else 0) on_break_callback
      zero_state).1.pc_previous) := by
  refine ⟨by decide, by decide, by decide, by decide, by decide⟩

/-- The opcode matches no implemented prefix: the conjunction below
negates, in order, every branch test of the `Rp2040.execute_instruction`
`if/elif` chain; `opcode2` is the second halfword fetched when the first
has top nibble `0b1111` (for a 16-bit opcode the tests involving
`opcode2` require its top nibble anyway, so they cannot fire). -/
def unknown_opcode (opcode opcode2 : Nat) : Prop :=
  ¬((opcode >>> 6) = 0b0100000101) ∧
  ¬((opcode >>> 9) = 0b0001110) ∧
  ¬((opcode >>> 11) = 0b00110) ∧
  ¬((opcode >>> 9) = 0b0001100) ∧
  ¬((opcode >>> 8) = 0b01000100) ∧
  ¬((opcode >>> 11) = 0b10101) ∧
  ¬((opcode >>> 7) = 0b101100000) ∧
  ¬((opcode >>> 11) = 0b10100) ∧
  ¬((opcode >>> 6) = 0b0100000000) ∧
  ¬((opcode >>> 11) = 0b00010) ∧
  ¬((opcode >>> 12) = 0b1101 ∧ ((opcode >>> 9) &&& 0x7) ≠ 0b111) ∧
  ¬((opcode >>> 11) = 0b11100) ∧
  ¬((opcode >>> 6) = 0b0100001110) ∧
  ¬((opcode >>> 8) = 0b10111110) ∧
  ¬((opcode >>> 11) = 0b11110 ∧ (opcode2 >>> 14) = 0b11) ∧
  ¬((opcode >>> 7) = 0b010001111) ∧
  ¬((opcode >>> 7) = 0b010001110) ∧
  ¬((opcode >>> 11) = 0b00101) ∧
  ¬((opcode >>> 6) = 0b0100001010) ∧
  ¬((opcode >>> 8) = 0b01000101) ∧
  ¬((opcode >>> 5) = 0b10110110011) ∧
  ¬(opcode = 0b1111001110111111 ∧ (opcode2 >>> 4) = 0b100011110101) ∧
  ¬((opcode >>> 6) = 0b0100000001) ∧
  ¬((opcode >>> 11) = 0b11001) ∧
  ¬((opcode >>> 11) = 0b01101) ∧
  ¬((opcode >>> 11) = 0b10011) ∧
  ¬((opcode >>> 11) = 0b01001) ∧
  ¬((opcode >>> 9) = 0b0101100) ∧
  ¬((opcode >>> 11) = 0b01111) ∧
  ¬((opcode >>> 9) = 0b0101110) ∧
  ¬((opcode >>> 11) = 0b10001) ∧
  ¬((opcode >>> 9) = 0b0101011) ∧
  ¬((opcode >>> 9) = 0b0101111) ∧
  ¬((opcode >>> 11) = 0b00000) ∧
  ¬((opcode >>> 6) = 0b0100000010) ∧
  ¬((opcode >>> 11) = 0b00001) ∧
  ¬((opcode >>> 6) = 0b0100000011) ∧
  ¬((opcode >>> 11) = 0b00100) ∧
  ¬((opcode >>> 8) = 0b01000110) ∧
  ¬(opcode = 0b1111001111101111 ∧ (opcode2 >>> 12) = 0b1000) ∧
  ¬((opcode >>> 5) = 0b11110011100 ∧ (opcode2 >>> 14) = 0b10) ∧
  ¬((opcode >>> 6) = 0b0100001101) ∧
  ¬((opcode >>> 6) = 0b0100001111) ∧
  ¬((opcode >>> 6) = 0b0100001100) ∧
  ¬((opcode >>> 9) = 0b1011110) ∧
  ¬((opcode >>> 9) = 0b1011010) ∧
  ¬((opcode >>> 6) = 0b1011101000) ∧
  ¬((opcode >>> 6) = 0b0100001001) ∧
  ¬((opcode >>> 6) = 0b0100000110) ∧
  ¬(opcode = 0b1011111101000000) ∧
  ¬((opcode >>> 11) = 0b11000) ∧
  ¬((opcode >>> 11) = 0b01100) ∧
  ¬((opcode >>> 11) = 0b10010) ∧
  ¬((opcode >>> 9) = 0b0101000) ∧
  ¬((opcode >>> 11) = 0b01110) ∧
  ¬((opcode >>> 9) = 0b0101010) ∧
  ¬((opcode >>> 11) = 0b10000) ∧
  ¬((opcode >>> 9) = 0b0101001) ∧
  ¬((opcode >>> 9) = 0b0001111) ∧
  ¬((opcode >>> 11) = 0b00111) ∧
  ¬((opcode >>> 9) = 0b0001101) ∧
  ¬((opcode >>> 7) = 0b101100001) ∧
  ¬((opcode >>> 6) = 0b1011001001) ∧
  ¬((opcode >>> 6) = 0b0100001000) ∧
  ¬((opcode >>> 6) = 0b1011001011) ∧
  ¬((opcode >>> 6) = 0b1011001010) ∧
  ¬(opcode = 0b1011111100100000)

/-- C7 (amended): whenever the fetched opcode matches no implemented
prefix, the executor calls `on_break(42)`; under the GDB stub callback the
CPU ends stopped with `stop_reason = 42`, `pc_previous` at the faulting
instruction and PC left after it (`pc+2`, or `pc+4` when the unmatched
opcode is 32-bit-prefixed and a second halfword was fetched); the
callback rewinds PC to `pc_previous` exactly when the reason is 190. -/
theorem claim_C7 (read : Int → Nat → Nat) (s : St)
    (h : unknown_opcode (read s.pc 2) (read (s.pc + 2) 2)) :
    ((execute_instruction read on_break_callback s).1.stopped = true ∧
     (execute_instruction read on_break_callback s).1.stop_reason = 42 ∧
     (execute_instruction read on_break_callback s).1.pc =
       s.pc + (if read s.pc 2 >>> 12 = 0b1111 then 4 else 2) ∧
     (execute_instruction read on_break_callback s).1.pc_previous = s.pc ∧
     (∀ s2 : St, (on_break_callback 190 s2).pc = s2.pc_previous)) ∧
    (∀ r : Nat, ∀ s2 : St, r ≠ 190 → (on_break_callback r s2).pc = s2.pc) := by
  have hF : ∀ r : Nat, ∀ s2 : St, r ≠ 190 → (on_break_callback r s2).pc = s2.pc := by
    intro r s2 hr
    simp [on_break_callback, on_break_default, St.stop, St.pc, hr]
  refine ⟨?_, hF⟩
  unfold unknown_opcode at h
  simp only [St.pc] at h ⊢
  obtain ⟨h1, h2, h3, h4, h5, h6, h7, h8, h9, h10, h11, h12, h13, h14, h15, h16, h17, h18, h19, h20, h21, h22, h23, h24, h25, h26, h27, h28, h29, h30, h31, h32, h33, h34, h35, h36, h37, h38, h39, h40, h41, h42, h43, h44, h45, h46, h47, h48, h49, h50, h51, h52, h53, h54, h55, h56, h57, h58, h59, h60, h61, h62, h63, h64, h65, h66, h67⟩ := h
  by_cases hf : read (s.registers 15) 2 >>> 12 = 0b1111 <;>
    simp [execute_instruction, h1, h2, h3, h4, h5, h6, h7, h8, h9, h10, h11, h12, h13, h14, h15, h16, h17, h18, h19, h20, h21, h22, h23, h24, h25, h26, h27, h28, h29, h30, h31, h32, h33, h34, h35, h36, h37, h38, h39, h40, h41, h42, h43, h44, h45, h46, h47, h48, h49, h50, h51, h52, h53, h54, h55, h56, h57, h58, h59, h60, h61, h62, h63, h64, h65, h66, h67, hf, on_break_callback, on_break_default,
      St.stop, St.set_pc, set_reg_registers, St.set_reg, St.pc] <;>
    omega

/-- The bus of the C7 witness: opcode `0xde00` everywhere. -/
def c7_read : Int → Nat → Nat := fun _ n => if n = 2 then 0xde00 else 0

/-- C7 witness: a concrete instantiation of `claim_C7` at the unmatched
16-bit opcode `0xde00`. -/
theorem claim_C7_witness :
    ((execute_instruction c7_read on_break_callback zero_state).1.stopped = true ∧
     (execute_instruction c7_read on_break_callback zero_state).1.stop_reason = 42 ∧
     (execute_instruction c7_read on_break_callback zero_state).1.pc =
       zero_state.pc + (if c7_read zero_state.pc 2 >>> 12 = 0b1111 then 4 else 2) ∧
     (execute_instruction c7_read on_break_callback zero_state).1.pc_previous =
       zero_state.pc ∧
     (∀ s2 : St, (on_break_callback 190 s2).pc = s2.pc_previous)) ∧
    (∀ r : Nat, ∀ s2 : St, r ≠ 190 → (on_break_callback r s2).pc = s2.pc) :=
  claim_C7 c7_read zero_state
    (by
      unfold unknown_opcode
      refine ⟨?_, ?_, ?_, ?_, ?_, ?_, ?_, ?_, ?_, ?_, ?_, ?_, ?_, ?_, ?_, ?_, ?_, ?_, ?_, ?_, ?_, ?_, ?_, ?_, ?_, ?_, ?_, ?_, ?_, ?_, ?_, ?_, ?_, ?_, ?_, ?_, ?_, ?_, ?_, ?_, ?_, ?_, ?_, ?_, ?_, ?_, ?_, ?_, ?_, ?_, ?_, ?_, ?_, ?_, ?_, ?_, ?_, ?_, ?_, ?_, ?_, ?_, ?_, ?_, ?_, ?_, ?_⟩ <;> decide)

/-! ## The CLOCKS register map (`rpy2040/peripherals/clocks.py`)

`Clocks` is a `MemoryRegionMap` constructed with `atomic_writes=True`.
Its hook dictionaries are embedded as total functions over offsets; the
generic `MemoryRegionMap.read`/`write` from `rpy2040/peripherals/mpu.py`
are specialized to this hook table. -/

def CLOCKS_BASE : Nat := 0x40008000
def CLOCKS_SIZE : Nat := 0x4000
def CLK_REF_CTRL : Nat := 0x30
def CLK_REF_DIV : Nat := 0x34
def CLK_REF_SELECTED : Nat := 0x38
def CLK_SYS_CTRL : Nat := 0x3c
def CLK_SYS_DIV : Nat := 0x40
def CLK_SYS_SELECTED : Nat := 0x44
def CLK_PERI_CTRL : Nat := 0x48
def CLK_PERI_DIV : Nat := 0x4c
def CLK_USB_CTRL : Nat := 0x54
def CLK_USB_DIV : Nat := 0x58
def CLK_ADC_CTRL : Nat := 0x60
def CLK_ADC_DIV : Nat := 0x64
def CLK_RTC_CTRL : Nat := 0x6c
def CLK_RTC_DIV : Nat := 0x70

def ATOMIC_XOR : Nat := 1
def ATOMIC_SET : Nat := 2
def ATOMIC_CLEAR : Nat := 3

/-- The stored registers of the `Clocks` instance. -/
structure ClocksState where
  ref_ctrl : Nat
  sys_ctrl : Nat
  peri_ctrl : Nat
  usb_ctrl : Nat
  adc_ctrl : Nat
  rtc_ctrl : Nat

/-- The `Clocks.readhooks` dictionary: `none` where no hook is registered. -/
def clocks_readhook (s : ClocksState) (address : Nat) : Option Nat :=
  if address = CLK_REF_CTRL then some s.ref_ctrl
  else if address = CLK_REF_DIV then some (1 <<< 8)
  else if address = CLK_REF_SELECTED then some (1 <<< (s.ref_ctrl &&& 0x3))
  else if address = CLK_SYS_CTRL then some s.sys_ctrl
  else if address = CLK_SYS_DIV then some (1 <<< 8)
  else if address = CLK_SYS_SELECTED then some (1 <<< (s.sys_ctrl &&& 0x1))
  else if address = CLK_PERI_CTRL then some s.peri_ctrl
  else if address = CLK_PERI_DIV then some (1 <<< 8)
  else if address = CLK_USB_CTRL then some s.usb_ctrl
  else if address = CLK_USB_DIV then some (1 <<< 8)
  else if address = CLK_ADC_CTRL then some s.adc_ctrl
  else if address = CLK_ADC_DIV then some (1 <<< 8)
  else if address = CLK_RTC_CTRL then some s.rtc_ctrl
  else if address = CLK_RTC_DIV then some (1 <<< 8)
  else none

/-- The `Clocks.writehooks` dictionary (only the two CTRL stores); a
missing hook logs and ignores the write. -/
def clocks_writehook (s : ClocksState) (address : Nat) (value : Nat) : ClocksState :=
  if address = CLK_REF_CTRL then { s with ref_ctrl := value }
  else if address = CLK_SYS_CTRL then { s with sys_ctrl := value }
  else s

/-- `MemoryRegionMap.read` specialized to the Clocks hook table: align the
address, call the hook, slice the little-endian bytes of the 32-bit hook
result for narrow reads (`int.to_bytes(4, 'little')[offset:offset+n]`,
which requires the hook result to be a 32-bit value). -/
def clocks_read (s : ClocksState) (address : Nat) (num_bytes : Nat) : Nat :=
  let aligned_address := address &&& 0xfffffffc
  match clocks_readhook s aligned_address with
  | some result => (result >>> (8 * (address - aligned_address))) % 2 ^ (8 * num_bytes)
  | none => 0

/-- The `atomic_writes` flag the `Clocks.__init__` passes to
`MemoryRegionMap.__init__`. -/
def clocks_atomic_writes : Bool := true

/-- `MemoryRegionMap.write` specialized to the Clocks map: align, replicate
narrow writes, apply the RP2040 atomic-alias decoding of offset bits
[13:12], and dispatch to the write hook. -/
def clocks_write (s : ClocksState) (address : Nat) (value : Nat) (num_bytes : Nat) : ClocksState :=
  let address := address &&& 0xfffffffc
  let value :=
    if num_bytes = 1 then
      ((value &&& 0xff) <<< 24) ||| ((value &&& 0xff) <<< 16) |||
        ((value &&& 0xff) <<< 8) ||| (value &&& 0xff)
    else if num_bytes = 2 then ((value &&& 0xffff) <<< 16) ||| (value &&& 0xffff)
    else value
  let av : Nat × Nat :=
    if clocks_atomic_writes then
      let atomic_type := (address >>> 12) &&& 3
      let address := pyAndNot address (3 <<< 12)
      let value :=
        if atomic_type = ATOMIC_XOR then value ^^^ clocks_read s address num_bytes
        else if atomic_type = ATOMIC_SET then value ||| clocks_read s address num_bytes
        else if atomic_type = ATOMIC_CLEAR then pyAndNot (clocks_read s address num_bytes) value
        else value
      (address, value)
    else (address, value)
  clocks_writehook s av.1 av.2

/-- The stored CTRL register a given hooked offset is backed by. -/
def clocks_ctrl (s : ClocksState) (o : Nat) : Nat :=
  if o = CLK_REF_CTRL then s.ref_ctrl else s.sys_ctrl

/-- C2: on the CLOCKS map (atomic aliases enabled), for an offset `o` with
both hooks backed by a stored 32-bit register holding `w` (CLK_REF_CTRL or
CLK_SYS_CTRL), a 4-byte write of `v` to `o+0x1000` stores `w XOR v`, to
`o+0x2000` stores `w OR v`, to `o+0x3000` stores `w AND NOT v` (bits
[13:12] of the offset are cleared before the write hook is selected), and
a write to `o` itself is a plain store of `v`. -/
theorem claim_C2 (s : ClocksState) (o v : Nat)
    (ho : o = CLK_REF_CTRL ∨ o = CLK_SYS_CTRL)
    (hw : clocks_ctrl s o < 2 ^ 32) :
    clocks_ctrl (clocks_write s (o + 0x1000) v 4) o = (clocks_ctrl s o) ^^^ v ∧
    clocks_ctrl (clocks_write s (o + 0x2000) v 4) o = (clocks_ctrl s o) ||| v ∧
    clocks_ctrl (clocks_write s (o + 0x3000) v 4) o = pyAndNot (clocks_ctrl s o) v ∧
    clocks_ctrl (clocks_write s o v 4) o = v := by
  rcases ho with h | h
  · subst h
    simp only [clocks_ctrl, CLK_REF_CTRL, CLK_SYS_CTRL] at hw ⊢
    norm_num at hw ⊢
    simp [clocks_write, clocks_read, clocks_readhook, clocks_writehook,
      clocks_atomic_writes, clocks_ctrl, ATOMIC_XOR, ATOMIC_SET, ATOMIC_CLEAR,
      CLK_REF_CTRL, CLK_REF_DIV, CLK_REF_SELECTED, CLK_SYS_CTRL, CLK_SYS_DIV,
      CLK_SYS_SELECTED, CLK_PERI_CTRL, CLK_PERI_DIV, CLK_USB_CTRL, CLK_USB_DIV,
      CLK_ADC_CTRL, CLK_ADC_DIV, CLK_RTC_CTRL, CLK_RTC_DIV,
      show (0x1030 &&& 0xfffffffc : Nat) = 0x1030 from rfl,
      show (0x2030 &&& 0xfffffffc : Nat) = 0x2030 from rfl,
      show (0x3030 &&& 0xfffffffc : Nat) = 0x3030 from rfl,
      show (0x30 &&& 0xfffffffc : Nat) = 0x30 from rfl,
      show ((1 : Nat) &&& 3) = 1 from rfl,
      show ((2 : Nat) &&& 3) = 2 from rfl,
      show ((3 : Nat) &&& 3) = 3 from rfl,
      show ((0 : Nat) &&& 3) = 0 from rfl,
      show pyAndNot 0x1030 0x3000 = 0x30 from by decide,
      show pyAndNot 0x2030 0x3000 = 0x30 from by decide,
      show pyAndNot 0x3030 0x3000 = 0x30 from by decide,
      show pyAndNot 0x30 0x3000 = 0x30 from by decide,
      Nat.mod_eq_of_lt hw, Nat.xor_comm v, Nat.lor_comm v]
  · subst h
    simp only [clocks_ctrl, CLK_REF_CTRL, CLK_SYS_CTRL] at hw ⊢
    norm_num at hw ⊢
    simp [clocks_write, clocks_read, clocks_readhook, clocks_writehook,
      clocks_atomic_writes, clocks_ctrl, ATOMIC_XOR, ATOMIC_SET, ATOMIC_CLEAR,
      CLK_REF_CTRL, CLK_REF_DIV, CLK_REF_SELECTED, CLK_SYS_CTRL, CLK_SYS_DIV,
      CLK_SYS_SELECTED, CLK_PERI_CTRL, CLK_PERI_DIV, CLK_USB_CTRL, CLK_USB_DIV,
      CLK_ADC_CTRL, CLK_ADC_DIV, CLK_RTC_CTRL, CLK_RTC_DIV,
      show (0x103c &&& 0xfffffffc : Nat) = 0x103c from rfl,
      show (0x203c &&& 0xfffffffc : Nat) = 0x203c from rfl,
      show (0x303c &&& 0xfffffffc : Nat) = 0x303c from rfl,
      show (0x3c &&& 0xfffffffc : Nat) = 0x3c from rfl,
      show ((1 : Nat) &&& 3) = 1 from rfl,
      show ((2 : Nat) &&& 3) = 2 from rfl,
      show ((3 : Nat) &&& 3) = 3 from rfl,
      show ((0 : Nat) &&& 3) = 0 from rfl,
      show pyAndNot 0x103c 0x3000 = 0x3c from by decide,
      show pyAndNot 0x203c 0x3000 = 0x3c from by decide,
      show pyAndNot 0x303c 0x3000 = 0x3c from by decide,
      show pyAndNot 0x3c 0x3000 = 0x3c from by decide,
      Nat.mod_eq_of_lt hw, Nat.xor_comm v, Nat.lor_comm v]

/-- C2 witness: a concrete instantiation of `claim_C2`. -/
theorem claim_C2_witness :
    clocks_ctrl (clocks_write ⟨0b1100, 0, 0, 0, 0, 0⟩ (CLK_REF_CTRL + 0x1000) 0b1010 4)
      CLK_REF_CTRL = (clocks_ctrl ⟨0b1100, 0, 0, 0, 0, 0⟩ CLK_REF_CTRL) ^^^ 0b1010 :=
  (claim_C2 ⟨0b1100, 0, 0, 0, 0, 0⟩ CLK_REF_CTRL 0b1010 (Or.inl rfl) (by decide)).1

/-! ## The SIO register map (`rpy2040/peripherals/sio.py`)

`Sio` is a `MemoryRegionMap` with `atomic_writes` left at its default
`False`.  Spinlock reads mutate the spinlock state, so the specialized
read returns the value together with the successor state. -/

def SIO_START : Nat := 0xd0000000
def SIO_SIZE : Nat := 0x1000000
def SIO_CPUID : Nat := 0x00
def SIO_GPIO_HI_IN : Nat := 0x08
def SIO_GPIO_OUT_SET : Nat := 0x14
def SIO_GPIO_OUT_CLR : Nat := 0x18
def SIO_DIV_UDIVIDEND : Nat := 0x60
def SIO_DIV_UDIVISOR : Nat := 0x64
def SIO_DIV_QUOTIENT : Nat := 0x70
def SIO_DIV_REMAINDER : Nat := 0x74
def SIO_DIV_CSR : Nat := 0x78
def SIO_SPINLOCK_BASE : Nat := 0x100

/-- The mutable state of a `Sio` instance. -/
structure SioState where
  cpuid : Nat
  gpio_hi_in : Nat
  div_csr : Nat
  div_dividend : Nat
  div_divisor : Nat
  div_quotient : Nat
  div_remainder : Nat
  div_unsigned : Bool
  spinlock : Nat → Bool

/-- `Sio.do_division`:
```
def do_division(self):
    self.div_csr &= ~1
    if self.div_divisor != 0:
        self.div_quotient = self.div_dividend // self.div_divisor
        self.div_remainder = self.div_dividend % self.div_divisor
        self.div_csr |= 1
```
-/
def do_division (s : SioState) : SioState :=
  let s := { s with div_csr := pyAndNot s.div_csr 1 }
  if s.div_divisor ≠ 0 then
    { s with div_quotient := s.div_dividend / s.div_divisor,
             div_remainder := s.div_dividend % s.div_divisor,
             div_csr := s.div_csr ||| 1 }
  else s

/-- `Sio.write_div_udividend`. -/
def write_div_udividend (s : SioState) (value : Nat) : SioState :=
  do_division { s with div_dividend := value, div_unsigned := true }

/-- `Sio.write_div_udivisor`. -/
def write_div_udivisor (s : SioState) (value : Nat) : SioState :=
  do_division { s with div_divisor := value, div_unsigned := true }

/-- `MemoryRegionMap.write` specialized to the Sio hook table (the GPIO
set/clear hooks only print; a spinlock write releases the lock; Sio has
`atomic_writes=False`, so the alias decoding is skipped). -/
def sio_write (s : SioState) (address : Nat) (value : Nat) (num_bytes : Nat) : SioState :=
  let address := address &&& 0xfffffffc
  let value :=
    if num_bytes = 1 then
      ((value &&& 0xff) <<< 24) ||| ((value &&& 0xff) <<< 16) |||
        ((value &&& 0xff) <<< 8) ||| (value &&& 0xff)
    else if num_bytes = 2 then ((value &&& 0xffff) <<< 16) ||| (value &&& 0xffff)
    else value
  if address = SIO_GPIO_OUT_SET then s
  else if address = SIO_GPIO_OUT_CLR then s
  else if address = SIO_DIV_UDIVIDEND then write_div_udividend s value
  else if address = SIO_DIV_UDIVISOR then write_div_udivisor s value
  else if SIO_SPINLOCK_BASE ≤ address ∧ address < SIO_SPINLOCK_BASE + 4 * 32 then
    let nr := (address - SIO_SPINLOCK_BASE) / 4
    { s with spinlock := fun k => if k = nr then false else s.spinlock k }
  else s

/-- `MemoryRegionMap.read` specialized to the Sio hook table; spinlock
reads take the lock, so the successor state is returned as well. -/
def sio_read (s : SioState) (address : Nat) (num_bytes : Nat) : Nat × SioState :=
  let aligned := address &&& 0xfffffffc
  let hook : Option (Nat × SioState) :=
    if aligned = SIO_CPUID then some (s.cpuid, s)
    else if aligned = SIO_GPIO_HI_IN then some (s.gpio_hi_in, s)
    else if aligned = SIO_DIV_QUOTIENT then some (s.div_quotient, s)
    else if aligned = SIO_DIV_REMAINDER then some (s.div_remainder, s)
    else if aligned = SIO_DIV_CSR then some (s.div_csr, s)
    else if SIO_SPINLOCK_BASE ≤ aligned ∧ aligned < SIO_SPINLOCK_BASE + 4 * 32 then
      let nr := (aligned - SIO_SPINLOCK_BASE) / 4
      if s.spinlock nr = false then
        some (1 <<< nr, { s with spinlock := fun k => if k = nr then true else s.spinlock k })
      else some (0, s)
    else none
  match hook with
  | some rs => ((rs.1 >>> (8 * (address - aligned))) % 2 ^ (8 * num_bytes), rs.2)
  | none => (0, s)

theorem and_one_eq_mod_two (x : Nat) : x &&& 1 = x % 2 := by
  norm_num

theorem lor_one_mod_two (x : Nat) : (x ||| 1) % 2 = 1 := by
  have h : (x ||| 1).testBit 0 = true := by
    rw [Nat.testBit_lor]
    simp
  rw [Nat.testBit_zero] at h
  exact of_decide_eq_true h

theorem pyAndNot_one_mod_two (x : Nat) : (pyAndNot x 1) % 2 = 0 := by
  have h : (pyAndNot x 1).testBit 0 = false := by
    rw [pyAndNot_eq_ldiff, Nat.testBit_ldiff]
    simp
  rw [Nat.testBit_zero] at h
  have h2 := of_decide_eq_false h
  omega

theorem do_division_pos (t : SioState) (h : t.div_divisor ≠ 0) :
    do_division t = { t with div_quotient := t.div_dividend / t.div_divisor,
                             div_remainder := t.div_dividend % t.div_divisor,
                             div_csr := pyAndNot t.div_csr 1 ||| 1 } := by
  simp only [do_division]
  rw [if_pos h]

theorem do_division_zero (t : SioState) (h : t.div_divisor = 0) :
    do_division t = { t with div_csr := pyAndNot t.div_csr 1 } := by
  simp only [do_division]
  rw [if_neg (by simp [h])]

theorem sio_write_udividend (s : SioState) (a : Nat) :
    sio_write s SIO_DIV_UDIVIDEND a 4 = write_div_udividend s a := by
  simp [sio_write, SIO_DIV_UDIVIDEND, SIO_GPIO_OUT_SET, SIO_GPIO_OUT_CLR,
    show (0x60 &&& 0xfffffffc : Nat) = 0x60 from by decide]

theorem sio_write_udivisor (s : SioState) (b : Nat) :
    sio_write s SIO_DIV_UDIVISOR b 4 = write_div_udivisor s b := by
  simp [sio_write, SIO_DIV_UDIVIDEND, SIO_DIV_UDIVISOR, SIO_GPIO_OUT_SET, SIO_GPIO_OUT_CLR,
    show (0x64 &&& 0xfffffffc : Nat) = 0x64 from by decide]

theorem sio_read_quotient (s : SioState) :
    sio_read s SIO_DIV_QUOTIENT 4 = (s.div_quotient % 2 ^ 32, s) := by
  simp [sio_read, SIO_DIV_QUOTIENT, SIO_CPUID, SIO_GPIO_HI_IN,
    show (0x70 &&& 0xfffffffc : Nat) = 0x70 from by decide]

theorem sio_read_remainder (s : SioState) :
    sio_read s SIO_DIV_REMAINDER 4 = (s.div_remainder % 2 ^ 32, s) := by
  simp [sio_read, SIO_DIV_QUOTIENT, SIO_DIV_REMAINDER, SIO_CPUID, SIO_GPIO_HI_IN,
    show (0x74 &&& 0xfffffffc : Nat) = 0x74 from by decide]

theorem sio_read_csr (s : SioState) :
    sio_read s SIO_DIV_CSR 4 = (s.div_csr % 2 ^ 32, s) := by
  simp [sio_read, SIO_DIV_QUOTIENT, SIO_DIV_REMAINDER, SIO_DIV_CSR, SIO_CPUID, SIO_GPIO_HI_IN,
    show (0x78 &&& 0xfffffffc : Nat) = 0x78 from by decide]

/-- C6 (amended): after writing dividend `a` to DIV_UDIVIDEND and divisor
`b` to DIV_UDIVISOR: if `b ≠ 0`, DIV_QUOTIENT reads `a / b`, DIV_REMAINDER
reads `a mod b` and DIV_CSR bit 0 reads 1.  If `b = 0`, DIV_CSR bit 0
reads 0 and the divisor write leaves quotient and remainder exactly as
they were after the dividend write; they equal their values from before
the two writes only when the previously-latched divisor was 0, because
the dividend write already re-ran the divider with that divisor. -/
theorem claim_C6 (s : SioState) (a b : Nat) (ha : a < 2 ^ 32)
    (hq : s.div_quotient < 2 ^ 32) (hr : s.div_remainder < 2 ^ 32) :
    (b ≠ 0 →
      (sio_read (sio_write (sio_write s SIO_DIV_UDIVIDEND a 4) SIO_DIV_UDIVISOR b 4)
        SIO_DIV_QUOTIENT 4).1 = a / b ∧
      (sio_read (sio_write (sio_write s SIO_DIV_UDIVIDEND a 4) SIO_DIV_UDIVISOR b 4)
        SIO_DIV_REMAINDER 4).1 = a % b ∧
      (sio_read (sio_write (sio_write s SIO_DIV_UDIVIDEND a 4) SIO_DIV_UDIVISOR b 4)
        SIO_DIV_CSR 4).1 &&& 1 = 1) ∧
    (b = 0 →
      (sio_read (sio_write (sio_write s SIO_DIV_UDIVIDEND a 4) SIO_DIV_UDIVISOR b 4)
        SIO_DIV_CSR 4).1 &&& 1 = 0 ∧
      (sio_write (sio_write s SIO_DIV_UDIVIDEND a 4) SIO_DIV_UDIVISOR b 4).div_quotient =
        (sio_write s SIO_DIV_UDIVIDEND a 4).div_quotient ∧
      (sio_write (sio_write s SIO_DIV_UDIVIDEND a 4) SIO_DIV_UDIVISOR b 4).div_remainder =
        (sio_write s SIO_DIV_UDIVIDEND a 4).div_remainder ∧
      (s.div_divisor = 0 →
        (sio_read (sio_write (sio_write s SIO_DIV_UDIVIDEND a 4) SIO_DIV_UDIVISOR b 4)
          SIO_DIV_QUOTIENT 4).1 = s.div_quotient ∧
        (sio_read (sio_write (sio_write s SIO_DIV_UDIVIDEND a 4) SIO_DIV_UDIVISOR b 4)
          SIO_DIV_REMAINDER 4).1 = s.div_remainder)) := by
  rw [sio_write_udividend, sio_write_udivisor]
  rw [sio_read_quotient, sio_read_remainder, sio_read_csr]
  unfold write_div_udivisor
  constructor
  · intro hb
    rw [do_division_pos _ (by simpa using hb)]
    have hdd : (write_div_udividend s a).div_dividend = a := by
      simp only [write_div_udividend, do_division]
      split <;> rfl
    simp only [hdd]
    refine ⟨?_, ?_, ?_⟩
    · have hlt : a / b < 2 ^ 32 := lt_of_le_of_lt (Nat.div_le_self a b) ha
      simp
      omega
    · have hlt : a % b < 2 ^ 32 := lt_of_le_of_lt (Nat.mod_le a b) ha
      simp
      omega
    · rw [and_one_eq_mod_two, Nat.mod_mod_of_dvd _ (by norm_num), lor_one_mod_two]
  · intro hb
    subst hb
    rw [do_division_zero _ (by simp)]
    refine ⟨?_, rfl, rfl, ?_⟩
    · rw [and_one_eq_mod_two, Nat.mod_mod_of_dvd _ (by norm_num), pyAndNot_one_mod_two]
    · intro hd
      unfold write_div_udividend
      rw [do_division_zero _ (by simpa using hd)]
      constructor
      · simp
        omega
      · simp
        omega

/-- The pre-state for the C6 counterexample: the divider has just computed
`7 / 2`, so `quotient = 3`, `remainder = 1`, latched divisor 2. -/
def c6_state : SioState :=
  { cpuid := 0, gpio_hi_in := 2, div_csr := 1, div_dividend := 7, div_divisor := 2,
    div_quotient := 3, div_remainder := 1, div_unsigned := true, spinlock := fun _ => false }

/-- C6 counterexample: writing dividend 5 and then divisor 0 leaves
DIV_QUOTIENT reading 2 (= 5 / 2, from the divider re-run triggered by the
dividend write with the previously-latched divisor 2), not the pre-write
quotient 3 the claim requires. -/
theorem claim_C6_counterexample :
    (sio_read (sio_write (sio_write c6_state SIO_DIV_UDIVIDEND 5 4) SIO_DIV_UDIVISOR 0 4)
      SIO_DIV_QUOTIENT 4).1 = 2 ∧
    c6_state.div_quotient = 3 := by
  exact ⟨by decide, rfl⟩

/-- C6 witness: a concrete instantiation of `claim_C6` (the `b ≠ 0` part). -/
theorem claim_C6_witness :
    (sio_read (sio_write (sio_write c6_state SIO_DIV_UDIVIDEND 9 4) SIO_DIV_UDIVISOR 4 4)
      SIO_DIV_QUOTIENT 4).1 = 9 / 4 ∧
    (sio_read (sio_write (sio_write c6_state SIO_DIV_UDIVIDEND 9 4) SIO_DIV_UDIVISOR 4 4)
      SIO_DIV_REMAINDER 4).1 = 9 % 4 ∧
    (sio_read (sio_write (sio_write c6_state SIO_DIV_UDIVIDEND 9 4) SIO_DIV_UDIVISOR 4 4)
      SIO_DIV_CSR 4).1 &&& 1 = 1 :=
  (claim_C6 c6_state 9 4 (by norm_num) (by norm_num [c6_state]) (by norm_num [c6_state])).1
    (by norm_num)

/-! ## The Cortex register map (`rpy2040/peripherals/cortexreg.py`)

`CortexRegisters` is a `MemoryRegionMap` with `atomic_writes` at its
default `False`.  The Python list `interrupt_levels` (four 32-bit level
bitmaps) is modelled as a total function of which indices 0-3 are used.
The `for` loops of `write_nvic_ipr_partial` are embedded as folds over
`List.range 4`; the inner clear loop and one outer iteration are named
`clear_levels` and `ipr_step`. -/

def CORTEX_REGISTER_BASE : Nat := 0xe0000000
def CORTEX_REGISTER_SIZE : Nat := 0xeda4
def NVIC_ISER : Nat := 0xe100
def NVIC_ICER : Nat := 0xe180
def NVIC_ISPR : Nat := 0xe200
def NVIC_ICPR : Nat := 0xe280
def NVIC_IPR_BASE : Nat := 0xe400
def VTOR : Nat := 0xed08

/-- The mutable state of a `CortexRegisters` instance. -/
structure CortexState where
  pending_interrupts : Nat
  enabled_interrupts : Nat
  interrupt_levels : Nat → Nat
  vtor : Nat

/-- The inner loop of `write_nvic_ipr_partial`:
`for level in range(4): self.interrupt_levels[level] &= ~(1 << interrupt_nr)`. -/
def clear_levels (s : CortexState) (interrupt_nr : Nat) : CortexState :=
  (List.range 4).foldl
    (fun s level =>
      { s with interrupt_levels := fun l =>
          if l = level then pyAndNot (s.interrupt_levels l) (1 <<< interrupt_nr)
          else s.interrupt_levels l }) s

/-- One iteration of the outer loop of `write_nvic_ipr_partial`: compute
this lane's interrupt number and two-bit priority, clear the interrupt's
bit in all four level bitmaps, then set it in the bitmap of its
priority (`self.interrupt_levels[priority] |= (1 << interrupt_nr)`). -/
def ipr_step (s : CortexState) (value : Nat) (ipr_nr : Nat) (i : Nat) : CortexState :=
  let interrupt_nr := ipr_nr * 4 + i
  let priority := (value >>> (i * 8 + 6)) &&& 0x3
  let s := clear_levels s interrupt_nr
  { s with interrupt_levels := fun l =>
      if l = priority then s.interrupt_levels l ||| (1 <<< interrupt_nr)
      else s.interrupt_levels l }

/-- `CortexRegisters.write_nvic_ipr_partial` (the name loses its Python suffix here): `for i in range(4): ...`. -/
def write_nvic_ipr (s : CortexState) (value : Nat) (ipr_nr : Nat) : CortexState :=
  (List.range 4).foldl (fun s i => ipr_step s value ipr_nr i) s

/-- `CortexRegisters.read_nvic_ipr_partial` (the name loses its Python suffix here):
```
regvalue = 0
for level in range(4):
    for i in range(4):
        if self.interrupt_levels[level] & (1 << ((ipr_nr * 4) + i)):
            regvalue |= level << ((i * 8) + 6)
return regvalue
```
-/
def read_nvic_ipr (s : CortexState) (ipr_nr : Nat) : Nat :=
  (List.range 4).foldl
    (fun regvalue level =>
      (List.range 4).foldl
        (fun regvalue i =>
          if s.interrupt_levels level &&& (1 <<< (ipr_nr * 4 + i)) ≠ 0 then
            regvalue ||| (level <<< (i * 8 + 6))
          else regvalue) regvalue) 0

/-- The `CortexRegisters.readhooks` dictionary (the eight `NVIC_IPRn` keys
are the aligned offsets `0xe400 + 4*n`, `n < 8`). -/
def cortex_readhook (s : CortexState) (address : Nat) : Option Nat :=
  if address = NVIC_ISER then some s.enabled_interrupts
  else if address = NVIC_ICER then some s.enabled_interrupts
  else if address = NVIC_ISPR then some s.pending_interrupts
  else if address = NVIC_ICPR then some s.pending_interrupts
  else if NVIC_IPR_BASE ≤ address ∧ address < NVIC_IPR_BASE + 8 * 4 then
    some (read_nvic_ipr s ((address - NVIC_IPR_BASE) / 4))
  else if address = VTOR then some s.vtor
  else none

/-- The `CortexRegisters.writehooks` dictionary. -/
def cortex_writehook (s : CortexState) (address : Nat) (value : Nat) : CortexState :=
  if address = NVIC_ISER then { s with enabled_interrupts := s.enabled_interrupts ||| value }
  else if address = NVIC_ICER then { s with enabled_interrupts := pyAndNot s.enabled_interrupts value }
  else if address = NVIC_ISPR then { s with pending_interrupts := s.pending_interrupts ||| value }
  else if address = NVIC_ICPR then { s with pending_interrupts := pyAndNot s.pending_interrupts value }
  else if NVIC_IPR_BASE ≤ address ∧ address < NVIC_IPR_BASE + 8 * 4 then
    write_nvic_ipr s value ((address - NVIC_IPR_BASE) / 4)
  else if address = VTOR then { s with vtor := value }
  else s

/-- `MemoryRegionMap.read` specialized to the Cortex hook table. -/
def cortex_read (s : CortexState) (address : Nat) (num_bytes : Nat) : Nat :=
  let aligned_address := address &&& 0xfffffffc
  match cortex_readhook s aligned_address with
  | some result => (result >>> (8 * (address - aligned_address))) % 2 ^ (8 * num_bytes)
  | none => 0

/-- `MemoryRegionMap.write` specialized to the Cortex hook table
(`atomic_writes=False`, so the alias decoding is skipped). -/
def cortex_write (s : CortexState) (address : Nat) (value : Nat) (num_bytes : Nat) : CortexState :=
  let address := address &&& 0xfffffffc
  let value :=
    if num_bytes = 1 then
      ((value &&& 0xff) <<< 24) ||| ((value &&& 0xff) <<< 16) |||
        ((value &&& 0xff) <<< 8) ||| (value &&& 0xff)
    else if num_bytes = 2 then ((value &&& 0xffff) <<< 16) ||| (value &&& 0xffff)
    else value
  cortex_writehook s address value

theorem and_lor_distrib (x a b : Nat) : x &&& (a ||| b) = (x &&& a) ||| (x &&& b) := by
  apply Nat.eq_of_testBit_eq
  intro j
  simp [Nat.testBit_land, Nat.testBit_lor, Bool.and_or_distrib_left]

theorem and_shiftLeft_comm (x y c : Nat) : x &&& (y <<< c) = ((x >>> c) &&& y) <<< c := by
  apply Nat.eq_of_testBit_eq
  intro j
  simp only [Nat.testBit_land, Nat.testBit_shiftLeft, Nat.testBit_shiftRight]
  rcases lt_or_ge j c with h | h
  · simp [Nat.not_le.mpr h]
  · have hc : c + (j - c) = j := by omega
    simp [ge_iff_le, h, hc]

/-- The byte-lane decomposition of the `0xC0C0C0C0` priority mask. -/
theorem and_c0c0 (v : Nat) :
    v &&& 0xC0C0C0C0 =
      ((v >>> 6) &&& 3) <<< 6 ||| ((v >>> 14) &&& 3) <<< 14 |||
      ((v >>> 22) &&& 3) <<< 22 ||| ((v >>> 30) &&& 3) <<< 30 := by
  have hmask : (0xC0C0C0C0 : Nat) = 3 <<< 6 ||| 3 <<< 14 ||| 3 <<< 22 ||| 3 <<< 30 := by decide
  rw [hmask, and_lor_distrib, and_lor_distrib, and_lor_distrib,
    and_shiftLeft_comm, and_shiftLeft_comm, and_shiftLeft_comm, and_shiftLeft_comm]

theorem and_shift_ne_iff (x n : Nat) : x &&& (1 <<< n) ≠ 0 ↔ x.testBit n = true := by
  rw [Nat.one_shiftLeft, Nat.and_two_pow]
  cases h : x.testBit n <;> simp [h]

theorem ite_true_false (c : Prop) [inst : Decidable c] :
    (if c then true else false) = decide c := by
  by_cases h : c <;> simp [h]

theorem clear_levels_testBit (s : CortexState) (nr : Nat) (l : Nat) (hl : l < 4) (p : Nat) :
    ((clear_levels s nr).interrupt_levels l).testBit p =
      ((s.interrupt_levels l).testBit p && !(decide (nr = p))) := by
  unfold clear_levels
  rw [show List.range 4 = [0, 1, 2, 3] from rfl]
  simp only [List.foldl_cons, List.foldl_nil]
  interval_cases l <;>
    simp [pyAndNot_eq_ldiff, Nat.one_shiftLeft, Nat.testBit_ldiff, Nat.testBit_two_pow]

theorem ipr_step_testBit (s : CortexState) (v k i : Nat) (l : Nat) (hl : l < 4) (p : Nat) :
    ((ipr_step s v k i).interrupt_levels l).testBit p =
      (if l = (v >>> (i * 8 + 6)) &&& 3 then
        ((s.interrupt_levels l).testBit p && !(decide (k * 4 + i = p))) || decide (k * 4 + i = p)
      else ((s.interrupt_levels l).testBit p && !(decide (k * 4 + i = p)))) := by
  have hproj : (ipr_step s v k i).interrupt_levels l =
      if l = (v >>> (i * 8 + 6)) &&& 0x3 then
        (clear_levels s (k * 4 + i)).interrupt_levels l ||| (1 <<< (k * 4 + i))
      else (clear_levels s (k * 4 + i)).interrupt_levels l := rfl
  rw [hproj]
  by_cases hp : l = (v >>> (i * 8 + 6)) &&& 0x3
  · rw [if_pos hp, if_pos hp]
    simp [clear_levels_testBit s (k * 4 + i) l hl p, Nat.one_shiftLeft, Nat.testBit_lor,
      Nat.testBit_two_pow]
  · rw [if_neg hp, if_neg hp]
    exact clear_levels_testBit s (k * 4 + i) l hl p

/-- The hook-level NVIC_IPR round trip: reading sub-register `k` right
after writing `v` to it returns `v AND 0xC0C0C0C0`. -/
theorem nvic_ipr_read_write (s : CortexState) (v : Nat) (k : Nat) :
    read_nvic_ipr (write_nvic_ipr s v k) k = v &&& 0xC0C0C0C0 := by
  rw [and_c0c0]
  have hb0 : (v >>> 6) &&& 3 < 4 := lt_of_le_of_lt Nat.and_le_right (by norm_num)
  have hb1 : (v >>> 14) &&& 3 < 4 := lt_of_le_of_lt Nat.and_le_right (by norm_num)
  have hb2 : (v >>> 22) &&& 3 < 4 := lt_of_le_of_lt Nat.and_le_right (by norm_num)
  have hb3 : (v >>> 30) &&& 3 < 4 := lt_of_le_of_lt Nat.and_le_right (by norm_num)
  unfold read_nvic_ipr write_nvic_ipr
  rw [show List.range 4 = [0, 1, 2, 3] from rfl]
  simp only [List.foldl_cons, List.foldl_nil]
  simp only [and_shift_ne_iff]
  simp [ipr_step_testBit _ _ _ _ 0 (by norm_num), ipr_step_testBit _ _ _ _ 1 (by norm_num),
    ipr_step_testBit _ _ _ _ 2 (by norm_num), ipr_step_testBit _ _ _ _ 3 (by norm_num),
    add_right_inj, ite_true_false]
  generalize hg0 : (v >>> 6) &&& 3 = p0
  generalize hg1 : (v >>> 14) &&& 3 = p1
  generalize hg2 : (v >>> 22) &&& 3 = p2
  generalize hg3 : (v >>> 30) &&& 3 = p3
  rw [hg0] at hb0
  rw [hg1] at hb1
  rw [hg2] at hb2
  rw [hg3] at hb3
  clear hg0 hg1 hg2 hg3
  revert hb3
  revert p3
  revert hb2
  revert p2
  revert hb1
  revert p1
  revert hb0
  revert p0
  decide

/-- C9: for every 32-bit value `v` and sub-register index `ipr_nr < 8`,
writing `v` to offset `0xe400 + 4*ipr_nr` of the Cortex register region
and reading the same offset back returns `v AND 0xC0C0C0C0`: exactly the
two priority bits at position `i*8+6` of each byte lane survive the round
trip through the four interrupt-level bitmaps. -/
theorem claim_C9 (s : CortexState) (v : Nat) (k : Nat) (hk : k < 8) (hv : v < 2 ^ 32) :
    cortex_read (cortex_write s (0xe400 + 4 * k) v 4) (0xe400 + 4 * k) 4 =
      v &&& 0xC0C0C0C0 := by
  have hlt : v &&& 0xC0C0C0C0 < 2 ^ 32 := lt_of_le_of_lt Nat.and_le_right (by norm_num)
  interval_cases k <;>
  · simp [cortex_read, cortex_write, cortex_readhook, cortex_writehook,
      NVIC_ISER, NVIC_ICER, NVIC_ISPR, NVIC_ICPR, NVIC_IPR_BASE, VTOR,
      nvic_ipr_read_write,
      show (0xe400 &&& 0xfffffffc : Nat) = 0xe400 from by decide,
      show (0xe404 &&& 0xfffffffc : Nat) = 0xe404 from by decide,
      show (0xe408 &&& 0xfffffffc : Nat) = 0xe408 from by decide,
      show (0xe40c &&& 0xfffffffc : Nat) = 0xe40c from by decide,
      show (0xe410 &&& 0xfffffffc : Nat) = 0xe410 from by decide,
      show (0xe414 &&& 0xfffffffc : Nat) = 0xe414 from by decide,
      show (0xe418 &&& 0xfffffffc : Nat) = 0xe418 from by decide,
      show (0xe41c &&& 0xfffffffc : Nat) = 0xe41c from by decide]
    omega

/-- C9 witness: a concrete instantiation of `claim_C9` at the reset state
of the NVIC level bitmaps. -/
theorem claim_C9_witness :
    cortex_read
      (cortex_write
        ⟨0, 0, fun l => if l = 0 then 0xffffffff else 0, 0⟩ (0xe400 + 4 * 2) 0x12345678 4)
      (0xe400 + 4 * 2) 4 = 0x12345678 &&& 0xC0C0C0C0 :=
  claim_C9 ⟨0, 0, fun l => if l = 0 then 0xffffffff else 0, 0⟩ 0x12345678 2
    (by norm_num) (by norm_num)

/-! ## The bus region table (`Rp2040.__init__` / `Mpu`, `rpy2040/rpy2040.py`
lines 73-91 and `rpy2040/peripherals/mpu.py` lines 89-115)

`Mpu.regions` is an insertion-ordered dict of named regions; only each
region's `(base_address, size)` pair matters to `find_region`, so the
table is embedded as the list of those pairs in registration order.
`Timer` (`rpy2040/peripherals/timer.py`, `TIMER_BASE = 0x40054000`,
`TIMER_SIZE = 0x44`) exists in the code base but `Rp2040.__init__` never
calls `register_region` on it. -/

def TIMER_BASE : Nat := 0x40054000
def TIMER_SIZE : Nat := 0x44

/-- The `(base_address, size)` pairs of the regions that `Rp2040.__init__`
registers, in registration order: flash, sram, rom, cortex0, sio, uart0,
xip_ssi, resets, xosc, clocks, pll_sys, pll_usb. -/
def rp2040_regions : List (Nat × Nat) :=
  [(0x10000000, 16 * 1024 * 1024),  -- flash
   (0x20000000, 264 * 1024),        -- sram
   (0x00000000, 16 * 1024),         -- rom
   (0xe0000000, 0xeda4),            -- cortex0
   (0xd0000000, 0x1000000),         -- sio
   (0x40034000, 0x1000),            -- uart0
   (0x18000000, 0x100),             -- xip_ssi
   (0x4000c000, 0xc),               -- resets
   (0x40024000, 0x20),              -- xosc
   (0x40008000, 0x4000),            -- clocks
   (0x40028000, 0x10),              -- pll_sys
   (0x4002c000, 0x10)]              -- pll_usb

/-- `Mpu.find_region`: the first registered region whose
`[base, base+size)` interval contains the address, else `None`. -/
def find_region (address : Nat) : Option (Nat × Nat) :=
  rp2040_regions.find? (fun r => decide (r.1 ≤ address ∧ address < r.1 + r.2))

/-- `Mpu.read`: route to the found region (parametrized here over the
region's own `read`, relative to the region base), or return 0 when no
region matches. -/
def mpu_read (regionRead : Nat × Nat → Nat → Nat → Nat)
    (address : Nat) (num_bytes : Nat) : Nat :=
  match find_region address with
  | some r => regionRead r (address - r.1) num_bytes
  | none => 0

/-- C8 counterexample: no region registered by `Rp2040.__init__` contains
`TIMER_BASE = 0x40054000`, so in particular no TIMER region is registered
with the bus. -/
theorem claim_C8_counterexample :
    (∀ r ∈ rp2040_regions, ¬(r.1 ≤ TIMER_BASE ∧ TIMER_BASE < r.1 + r.2)) ∧
      find_region 0x4005400c = none := by decide

/-- C8 (amended): the `Timer` peripheral is implemented but never
registered: `find_region` fails on the whole TIMER register interval
`[0x40054000, 0x40054044)`, and a bus read of TIMELR at `0x4005400c` —
whatever the registered regions' own read functions do — falls through to
`Mpu.read`'s missing-region default and returns 0. -/
theorem claim_C8 :
    (∀ a, TIMER_BASE ≤ a → a < TIMER_BASE + TIMER_SIZE → find_region a = none) ∧
      ∀ regionRead, mpu_read regionRead 0x4005400c 4 = 0 := by
  constructor
  · intro a h1 h2
    simp only [TIMER_BASE, TIMER_SIZE] at h1 h2
    simp only [find_region, rp2040_regions, List.find?]
    have : ∀ b s : Nat, b + s ≤ 0x40054000 ∨ 0x40054044 ≤ b →
        (decide (b ≤ a ∧ a < b + s)) = false := by
      intro b s h
      simp only [decide_eq_false_iff_not, not_and, not_lt]
      omega
    rw [this 0x10000000 (16 * 1024 * 1024) (by norm_num),
      this 0x20000000 (264 * 1024) (by norm_num),
      this 0x00000000 (16 * 1024) (by norm_num),
      this 0xe0000000 0xeda4 (by norm_num),
      this 0xd0000000 0x1000000 (by norm_num),
      this 0x40034000 0x1000 (by norm_num),
      this 0x18000000 0x100 (by norm_num),
      this 0x4000c000 0xc (by norm_num),
      this 0x40024000 0x20 (by norm_num),
      this 0x40008000 0x4000 (by norm_num),
      this 0x40028000 0x10 (by norm_num),
      this 0x4002c000 0x10 (by norm_num)]
  · intro regionRead
    have h : find_region 0x4005400c = none := by decide
    simp [mpu_read, h]

/-- C8 witness: the amended theorem instantiated at `TIMELR`
(`0x4005400c`) and the constantly-zero region read. -/
theorem claim_C8_witness :
    find_region 0x4005400c = none ∧ mpu_read (fun _ _ _ => 0) 0x4005400c 4 = 0 :=
  ⟨(claim_C8.1 0x4005400c (by norm_num [TIMER_BASE]) (by norm_num [TIMER_BASE, TIMER_SIZE])),
    claim_C8.2 (fun _ _ _ => 0)⟩
